import Mathlib

/-!
Shallow embedding of the analytical core of the Bob-Sport-Tracker repository:
the statistics engine (`src/utils/statistics.ts`), the personal-record
detector (`src/utils/recordDetection.ts`), the training-zone classifier
(`src/utils/trainingZones.ts`) and the period/trend aggregator
(`src/services/periodStatistics.ts` together with
`src/utils/periodCalculations.ts`).

JavaScript numbers are modelled as exact rationals (`ℚ`); `Date` values are
modelled as rational epoch-milliseconds.  Optional (possibly-`undefined`)
numeric fields are modelled as `Option ℚ`.  Display-only string fields
(zone names, colors, human-readable messages) are omitted from the record
structures: no computation under verification reads them.
-/

namespace BobSport

/-! ## Data model (`src/types/activity.ts`) -/

/-- One instantaneous sample inside a lap.  `time` is epoch milliseconds. -/
structure Trackpoint where
  time : ℚ
  latitude : Option ℚ := none
  longitude : Option ℚ := none
  altitude : Option ℚ := none
  distance : Option ℚ := none
  heartRate : Option ℚ := none
  cadence : Option ℚ := none
  speed : Option ℚ := none
  power : Option ℚ := none
  deriving Repr, DecidableEq

/-- A contiguous segment of an activity (string metadata fields omitted). -/
structure Lap where
  startTime : ℚ
  totalTimeSeconds : ℚ
  distanceMeters : ℚ
  maximumSpeed : Option ℚ := none
  calories : Option ℚ := none
  averageHeartRate : Option ℚ := none
  maximumHeartRate : Option ℚ := none
  cadence : Option ℚ := none
  trackpoints : List Trackpoint
  deriving Repr, DecidableEq

/-- A single recorded workout (creator metadata and notes omitted). -/
structure Activity where
  id : String
  sport : String
  startTime : ℚ
  totalTimeSeconds : ℚ
  distanceMeters : ℚ
  calories : Option ℚ := none
  laps : List Lap
  deriving Repr, DecidableEq

/-- Derived statistics snapshot (`Statistics` in `src/types/activity.ts`). -/
structure Statistics where
  totalDistance : ℚ
  totalTime : ℚ
  averageSpeed : ℚ
  maxSpeed : ℚ
  averageHeartRate : Option ℚ := none
  maxHeartRate : Option ℚ := none
  minHeartRate : Option ℚ := none
  averageCadence : Option ℚ := none
  maxCadence : Option ℚ := none
  totalCalories : Option ℚ := none
  elevationGain : Option ℚ := none
  elevationLoss : Option ℚ := none
  minAltitude : Option ℚ := none
  maxAltitude : Option ℚ := none
  averagePace : Option ℚ := none
  maxPace : Option ℚ := none
  deriving Repr, DecidableEq

/-! ## Generic JavaScript helpers -/

/-- JavaScript truthiness of an optional number: `undefined` and `0` are
falsy, every other (finite) number is truthy. -/
def truthy (o : Option ℚ) : Bool :=
  o.elim false (fun x => decide (x ≠ 0))

/-- `Math.max(...xs)` over a non-empty array (returned as `none` on the
empty array, where JavaScript would give `-Infinity`). -/
def listMax : List ℚ → Option ℚ
  | [] => none
  | x :: xs => some (xs.foldl max x)

/-- `Math.min(...xs)` over a non-empty array (`none` on the empty array). -/
def listMin : List ℚ → Option ℚ
  | [] => none
  | x :: xs => some (xs.foldl min x)

/-- `xs.reduce((sum, x) => sum + x, 0)`. -/
def listSum (xs : List ℚ) : ℚ :=
  xs.foldl (· + ·) 0

/-- Arithmetic mean of a list of samples (callers guard non-emptiness). -/
def listMean (xs : List ℚ) : ℚ :=
  listSum xs / (xs.length : ℚ)

/-- `Math.round`: round half upward, `⌊x + 1/2⌋` (stated via the
executable `Rat.floor`). -/
def jsRound (x : ℚ) : ℤ :=
  (x + 1/2).floor

/-! ## Statistics engine (`src/utils/statistics.ts`, `calculateStatistics`) -/

/-- Concatenation of all laps' trackpoints, in original order. -/
def allTrackpoints (activity : Activity) : List Trackpoint :=
  (activity.laps.map Lap.trackpoints).flatten

/-- Accumulated (gain, loss) of positive/negative deltas between
chronologically consecutive altitude samples. -/
def elevGainLoss : List ℚ → ℚ × ℚ
  | a :: b :: rest =>
      let r := elevGainLoss (b :: rest)
      if b - a > 0 then (r.1 + (b - a), r.2) else (r.1, r.2 + |b - a|)
  | _ => (0, 0)

/-- Embedding of `calculateStatistics`. -/
def calculateStatistics (activity : Activity) : Statistics :=
  let tpsAll := allTrackpoints activity
  if tpsAll.length = 0 then
      { totalDistance := activity.distanceMeters
        totalTime := activity.totalTimeSeconds
        averageSpeed := activity.distanceMeters / activity.totalTimeSeconds
        maxSpeed := 0
        totalCalories := activity.calories }
  else
      let heartRates := tpsAll.filterMap Trackpoint.heartRate
      let averageHeartRate :=
        if heartRates.length > 0 then some (listMean heartRates) else none
      let maxHeartRate := listMax heartRates
      let minHeartRate := listMin heartRates
      let cadences := tpsAll.filterMap Trackpoint.cadence
      let averageCadence :=
        if cadences.length > 0 then some (listMean cadences) else none
      let maxCadence := listMax cadences
      let altitudes := tpsAll.filterMap Trackpoint.altitude
      let gl := elevGainLoss altitudes
      let minAltitude := listMin altitudes
      let maxAltitude := listMax altitudes
      let speeds := (tpsAll.filterMap Trackpoint.speed).filter (fun s => decide (s > 0))
      let averageSpeed :=
        if speeds.length > 0 then listMean speeds
        else activity.distanceMeters / activity.totalTimeSeconds
      let maxSpeed :=
        if speeds.length > 0 then (listMax speeds).getD 0
        else (listMax (activity.laps.map (fun lap => lap.maximumSpeed.getD 0))).getD 0
      let averagePace := if averageSpeed > 0 then some (1000 / (averageSpeed * 60)) else none
      let maxPace := if maxSpeed > 0 then some (1000 / (maxSpeed * 60)) else none
      { totalDistance := activity.distanceMeters
        totalTime := activity.totalTimeSeconds
        averageSpeed := averageSpeed
        maxSpeed := maxSpeed
        averageHeartRate := averageHeartRate
        maxHeartRate := maxHeartRate
        minHeartRate := minHeartRate
        averageCadence := averageCadence
        maxCadence := maxCadence
        totalCalories := activity.calories
        elevationGain := if gl.1 > 0 then some gl.1 else none
        elevationLoss := if gl.2 > 0 then some gl.2 else none
        minAltitude := minAltitude
        maxAltitude := maxAltitude
        averagePace := averagePace
        maxPace := maxPace }

/-! ## Personal-record model (`src/types/records.ts`) -/

/-- Record type (`RecordType`). -/
inductive RecordType where
  | distance | speed | pace | time | elevation | calories | heartRate
  deriving Repr, DecidableEq, Inhabited

/-- Record category (`RecordCategory`): the five fixed distance bands plus
the qualitative buckets. -/
inductive RecordCategory where
  | km1 | km5 | km10 | halfMarathon | marathon | longest | fastest | highest
  deriving Repr, DecidableEq, Inhabited

/-- String key of a record type, as used in record ids. -/
def RecordType.key : RecordType → String
  | .distance => "distance"
  | .speed => "speed"
  | .pace => "pace"
  | .time => "time"
  | .elevation => "elevation"
  | .calories => "calories"
  | .heartRate => "heartRate"

/-- String key of a record category, as used in record ids. -/
def RecordCategory.key : RecordCategory → String
  | .km1 => "1km"
  | .km5 => "5km"
  | .km10 => "10km"
  | .halfMarathon => "halfMarathon"
  | .marathon => "marathon"
  | .longest => "longest"
  | .fastest => "fastest"
  | .highest => "highest"

/-- A stored personal record (`PersonalRecord`; `createdAt` timestamp and
display-only fields omitted). -/
structure PersonalRecord where
  id : String
  type : RecordType
  category : RecordCategory
  value : ℚ
  unit : String
  activityId : String
  activityDate : ℚ
  sport : String
  previousValue : Option ℚ := none
  improvement : Option ℚ := none
  isNew : Bool := false
  deriving Repr, DecidableEq

/-- One detection outcome (`RecordDetectionResult`; the human-readable
`message` string is omitted). -/
structure RecordDetectionResult where
  isRecord : Bool
  recordType : Option RecordType := none
  category : Option RecordCategory := none
  value : Option ℚ := none
  previousValue : Option ℚ := none
  improvement : Option ℚ := none
  deriving Repr, DecidableEq

/-- `DISTANCE_CATEGORIES` (`src/types/records.ts`): category, min, max. -/
def DISTANCE_CATEGORIES : List (RecordCategory × ℚ × ℚ) :=
  [(.km1, 900, 1100), (.km5, 4500, 5500), (.km10, 9500, 10500),
   (.halfMarathon, 20000, 22000), (.marathon, 41000, 43000)]

/-! ## Record detector (`src/utils/recordDetection.ts`) -/

/-- `detectDistanceRecords`. -/
def detectDistanceRecords (activity : Activity) (existingRecords : List PersonalRecord) :
    List RecordDetectionResult :=
  let distance := activity.distanceMeters
  let longestRecord := existingRecords.find? fun r =>
    decide (r.type = .distance ∧ r.category = .longest ∧ r.sport = activity.sport)
  match longestRecord with
  | none =>
      [{ isRecord := true, recordType := some .distance, category := some .longest,
         value := some distance, previousValue := none, improvement := some distance }]
  | some r =>
      if distance > r.value then
        [{ isRecord := true, recordType := some .distance, category := some .longest,
           value := some distance, previousValue := some r.value,
           improvement := some (distance - r.value) }]
      else []

/-- `detectSpeedRecords`. -/
def detectSpeedRecords (activity : Activity) (existingRecords : List PersonalRecord) :
    List RecordDetectionResult :=
  let stats := calculateStatistics activity
  let speedRecord := existingRecords.find? fun r =>
    decide (r.type = .speed ∧ r.category = .fastest ∧ r.sport = activity.sport)
  let fastestResults : List RecordDetectionResult :=
    match speedRecord with
    | none =>
        [{ isRecord := true, recordType := some .speed, category := some .fastest,
           value := some stats.maxSpeed, previousValue := none,
           improvement := some stats.maxSpeed }]
    | some r =>
        if stats.maxSpeed > r.value then
          [{ isRecord := true, recordType := some .speed, category := some .fastest,
             value := some stats.maxSpeed, previousValue := some r.value,
             improvement := some (stats.maxSpeed - r.value) }]
        else []
  let avgSpeedRecord := existingRecords.find? fun r =>
    decide (r.type = .speed ∧ r.category = .km10 ∧ r.sport = activity.sport)
  let avgResults : List RecordDetectionResult :=
    if activity.distanceMeters ≥ 9500 ∧ activity.distanceMeters ≤ 10500 then
      match avgSpeedRecord with
      | none =>
          [{ isRecord := true, recordType := some .speed, category := some .km10,
             value := some stats.averageSpeed, previousValue := none,
             improvement := some stats.averageSpeed }]
      | some r =>
          if stats.averageSpeed > r.value then
            [{ isRecord := true, recordType := some .speed, category := some .km10,
               value := some stats.averageSpeed, previousValue := some r.value,
               improvement := some (stats.averageSpeed - r.value) }]
          else []
    else []
  fastestResults ++ avgResults

/-- One iteration of the `DISTANCE_CATEGORIES` loop in `detectTimeRecords`. -/
def detectTimeStep (activity : Activity) (existingRecords : List PersonalRecord)
    (entry : RecordCategory × ℚ × ℚ) : List RecordDetectionResult :=
  let distance := activity.distanceMeters
  let time := activity.totalTimeSeconds
  if distance ≥ entry.2.1 ∧ distance ≤ entry.2.2 then
    let timeRecord := existingRecords.find? fun r =>
      decide (r.type = .time ∧ r.category = entry.1 ∧ r.sport = activity.sport)
    match timeRecord with
    | none =>
        [{ isRecord := true, recordType := some .time, category := some entry.1,
           value := some time, previousValue := none, improvement := some 0 }]
    | some r =>
        if time < r.value then
          [{ isRecord := true, recordType := some .time, category := some entry.1,
             value := some time, previousValue := some r.value,
             improvement := some (r.value - time) }]
        else []
  else []

/-- `detectTimeRecords`: lower time is better; ranges over the five fixed
distance bands. -/
def detectTimeRecords (activity : Activity) (existingRecords : List PersonalRecord) :
    List RecordDetectionResult :=
  DISTANCE_CATEGORIES.flatMap (detectTimeStep activity existingRecords)

/-- `detectElevationRecords`. -/
def detectElevationRecords (activity : Activity) (existingRecords : List PersonalRecord) :
    List RecordDetectionResult :=
  let stats := calculateStatistics activity
  if truthy stats.elevationGain = false then []
  else
    let gain := stats.elevationGain.getD 0
    let elevationRecord := existingRecords.find? fun r =>
      decide (r.type = .elevation ∧ r.category = .highest ∧ r.sport = activity.sport)
    match elevationRecord with
    | none =>
        [{ isRecord := true, recordType := some .elevation, category := some .highest,
           value := some gain, previousValue := none, improvement := some gain }]
    | some r =>
        if gain > r.value then
          [{ isRecord := true, recordType := some .elevation, category := some .highest,
             value := some gain, previousValue := some r.value,
             improvement := some (gain - r.value) }]
        else []

/-- `detectCalorieRecords` (note: the lookup matches on type and sport only,
and the produced category reuses `longest` as a default bucket). -/
def detectCalorieRecords (activity : Activity) (existingRecords : List PersonalRecord) :
    List RecordDetectionResult :=
  if truthy activity.calories = false then []
  else
    let cal := activity.calories.getD 0
    let calorieRecord := existingRecords.find? fun r =>
      decide (r.type = .calories ∧ r.sport = activity.sport)
    match calorieRecord with
    | none =>
        [{ isRecord := true, recordType := some .calories, category := some .longest,
           value := some cal, previousValue := none, improvement := some cal }]
    | some r =>
        if cal > r.value then
          [{ isRecord := true, recordType := some .calories, category := some .longest,
             value := some cal, previousValue := some r.value,
             improvement := some (cal - r.value) }]
        else []

/-- `detectRecords`: the five passes in order, filtered to `isRecord`. -/
def detectRecords (activity : Activity) (existingRecords : List PersonalRecord) :
    List RecordDetectionResult :=
  (detectDistanceRecords activity existingRecords ++
   detectSpeedRecords activity existingRecords ++
   detectTimeRecords activity existingRecords ++
   detectElevationRecords activity existingRecords ++
   detectCalorieRecords activity existingRecords).filter (fun r => r.isRecord)

/-- `getUnitForRecordType`. -/
def getUnitForRecordType : RecordType → String
  | .distance => "m"
  | .speed => "m/s"
  | .pace => "min/km"
  | .time => "s"
  | .elevation => "m"
  | .calories => "kcal"
  | .heartRate => "bpm"

/-- `createRecordFromDetection` (the `createdAt := new Date()` wall-clock
timestamp is omitted). -/
def createRecordFromDetection (detection : RecordDetectionResult) (activity : Activity) :
    PersonalRecord :=
  { id := activity.id ++ "-" ++ (detection.recordType.get!).key ++ "-" ++
      (detection.category.get!).key
    type := detection.recordType.get!
    category := detection.category.get!
    value := detection.value.get!
    unit := getUnitForRecordType detection.recordType.get!
    activityId := activity.id
    activityDate := activity.startTime
    sport := activity.sport
    previousValue := detection.previousValue
    improvement := detection.improvement
    isNew := true }

/-! ## Training-zone model (`src/types/trainingZones.ts`) -/

/-- `ZoneNumber`: one of the five zones. -/
inductive ZoneNumber where
  | one | two | three | four | five
  deriving Repr, DecidableEq, Inhabited

/-- Numeric index 1..5 of a zone number. -/
def ZoneNumber.toNat : ZoneNumber → ℕ
  | .one => 1
  | .two => 2
  | .three => 3
  | .four => 4
  | .five => 5

/-- `HeartRateZone` (display-only string fields omitted). -/
structure HeartRateZone where
  zone : ZoneNumber
  minHR : ℚ
  maxHR : ℚ
  minPercent : ℚ := 0
  maxPercent : ℚ := 0
  deriving Repr, DecidableEq

/-- `ZoneDistribution`: seconds accumulated per zone plus the unknown
bucket. -/
structure ZoneDistribution where
  zone1 : ℚ
  zone2 : ℚ
  zone3 : ℚ
  zone4 : ℚ
  zone5 : ℚ
  unknown : ℚ
  deriving Repr, DecidableEq

/-- `ZonePercentages`: the independently rounded integer percentages. -/
structure ZonePercentages where
  zone1 : ℤ
  zone2 : ℤ
  zone3 : ℤ
  zone4 : ℤ
  zone5 : ℤ
  unknown : ℤ
  deriving Repr, DecidableEq

/-- `TrainingType`. -/
inductive TrainingType where
  | recovery | endurance | tempo | threshold | interval | mixed | unknown
  deriving Repr, DecidableEq

/-! ## Training-zone classifier (`src/utils/trainingZones.ts`) -/

/-- The containment test of the zone-lookup loop:
`heartRate >= zone.minHR && heartRate <= zone.maxHR`. -/
def zonePred (heartRate : ℚ) : HeartRateZone → Bool := fun z =>
  decide (heartRate ≥ z.minHR ∧ heartRate ≤ z.maxHR)

/-- `getZoneForHeartRate`: first zone whose `[minHR, maxHR]` contains the
value, then clamping above zone 5 and below zone 1, else `null`.  The two
clamp checks read `zones[4]` and `zones[0]`; an out-of-bounds read makes
the JavaScript comparison false. -/
def getZoneForHeartRate (heartRate : ℚ) (zones : List HeartRateZone) : Option ZoneNumber :=
  match zones.find? (zonePred heartRate) with
  | some z => some z.zone
  | none =>
      if (zones.get? 4).elim false (fun z => decide (heartRate > z.maxHR)) then
        some ZoneNumber.five
      else if (zones.get? 0).elim false (fun z => decide (heartRate < z.minHR)) then
        some ZoneNumber.one
      else none

/-- Adjacent-pair intervals of one lap's trackpoints: the first point's
heart rate together with the elapsed seconds to the next point. -/
def lapIntervals : List Trackpoint → List (Option ℚ × ℚ)
  | a :: b :: rest => (a.heartRate, (b.time - a.time) / 1000) :: lapIntervals (b :: rest)
  | _ => []

/-- The body of the classification loop in `calculateTimeInZones`: add one
interval's duration to the bucket selected by its heart rate (JavaScript's
`!hr` sends both a missing and a zero heart rate to `unknown`). -/
def addInterval (zones : List HeartRateZone) (d : ZoneDistribution)
    (iv : Option ℚ × ℚ) : ZoneDistribution :=
  let (hr, duration) := iv
  if truthy hr = false then { d with unknown := d.unknown + duration }
  else
    match getZoneForHeartRate (hr.getD 0) zones with
    | none => { d with unknown := d.unknown + duration }
    | some .one => { d with zone1 := d.zone1 + duration }
    | some .two => { d with zone2 := d.zone2 + duration }
    | some .three => { d with zone3 := d.zone3 + duration }
    | some .four => { d with zone4 := d.zone4 + duration }
    | some .five => { d with zone5 := d.zone5 + duration }

/-- `calculateTimeInZones`: intervals are formed within each lap only, then
classified by the first trackpoint's heart rate. -/
def calculateTimeInZones (activity : Activity) (zones : List HeartRateZone) :
    ZoneDistribution :=
  let intervals := (activity.laps.map (fun lap => lapIntervals lap.trackpoints)).flatten
  intervals.foldl (addInterval zones) ⟨0, 0, 0, 0, 0, 0⟩

/-- `calculateZonePercentages`: each bucket rounded independently. -/
def calculateZonePercentages (d : ZoneDistribution) : ZonePercentages :=
  let total := d.zone1 + d.zone2 + d.zone3 + d.zone4 + d.zone5 + d.unknown
  if total = 0 then ⟨0, 0, 0, 0, 0, 0⟩
  else
    { zone1 := jsRound (d.zone1 / total * 100)
      zone2 := jsRound (d.zone2 / total * 100)
      zone3 := jsRound (d.zone3 / total * 100)
      zone4 := jsRound (d.zone4 / total * 100)
      zone5 := jsRound (d.zone5 / total * 100)
      unknown := jsRound (d.unknown / total * 100) }

/-- `getDominantZone`: first-max scan over zones 1..5 (a `reduce` without
initial value, so the zone-1 entry seeds the scan); `null` unless the
winning time is positive.  The unknown bucket never participates. -/
def getDominantZone (d : ZoneDistribution) : Option ZoneNumber :=
  let rest : List (ZoneNumber × ℚ) :=
    [(.two, d.zone2), (.three, d.zone3), (.four, d.zone4), (.five, d.zone5)]
  let maxZone := rest.foldl (fun m c => if c.2 > m.2 then c else m) (ZoneNumber.one, d.zone1)
  if maxZone.2 > 0 then some maxZone.1 else none

/-- `determineTrainingType`: ordered decision list, first match wins. -/
def determineTrainingType (p : ZonePercentages) : TrainingType :=
  if p.zone1 + p.zone2 > 60 ∧ p.zone1 > p.zone2 then .recovery
  else if p.zone2 + p.zone3 > 70 ∧ p.zone2 > p.zone3 then .endurance
  else if p.zone3 + p.zone4 > 50 ∧ p.zone3 > p.zone4 then .tempo
  else if p.zone4 > 40 then .threshold
  else if p.zone5 > 20 ∨ (p.zone4 + p.zone5 > 50 ∧ p.zone5 > 15) then .interval
  else if p.unknown < 50 then .mixed
  else .unknown

/-! ## Calendar model for the period calculator

`src/utils/periodCalculations.ts` delegates its date arithmetic to the
external date-fns library.  Modelled from the spec: weeks start on Monday
and end on Sunday; month and year bounds follow the proleptic Gregorian
calendar (days are converted to and from civil dates with the standard
era-based algorithms); subtracting a month or a year clamps the
day-of-month.  Dates are rational epoch-milliseconds, interpreted in a
single fixed (UTC) frame. -/

/-- Milliseconds per day. -/
def msPerDay : ℚ := 86400000

/-- The civil day containing an epoch-millisecond instant. -/
def dayOfMs (t : ℚ) : ℤ := (t / msPerDay).floor

/-- Days since 1970-01-01 of a proleptic Gregorian civil date. -/
def daysFromCivil (y m d : ℤ) : ℤ :=
  let y' := if m ≤ 2 then y - 1 else y
  let era := y'.fdiv 400
  let yoe := y' - era * 400
  let mp := if m > 2 then m - 3 else m + 9
  let doy := (153 * mp + 2).fdiv 5 + d - 1
  let doe := yoe * 365 + yoe.fdiv 4 - yoe.fdiv 100 + doy
  era * 146097 + doe - 719468

/-- Civil date (year, month, day) of a day count since 1970-01-01. -/
def civilFromDays (z : ℤ) : ℤ × ℤ × ℤ :=
  let z' := z + 719468
  let era := z'.fdiv 146097
  let doe := z' - era * 146097
  let yoe := (doe - doe.fdiv 1460 + doe.fdiv 36524 - doe.fdiv 146096).fdiv 365
  let y := yoe + era * 400
  let doy := doe - (365 * yoe + yoe.fdiv 4 - yoe.fdiv 100)
  let mp := (5 * doy + 2).fdiv 153
  let d := doy - (153 * mp + 2).fdiv 5 + 1
  let m := if mp < 10 then mp + 3 else mp - 9
  (if m ≤ 2 then y + 1 else y, m, d)

/-- Number of days in a civil month. -/
def daysInMonth (y m : ℤ) : ℤ :=
  let next := if m = 12 then daysFromCivil (y + 1) 1 1 else daysFromCivil y (m + 1) 1
  next - daysFromCivil y m 1

/-- A date range, both ends inclusive (`DateRange`). -/
structure DateRange where
  start : ℚ
  stop : ℚ
  deriving Repr, DecidableEq

/-- Monday-based start of the week containing an instant (day 0 of the
epoch, 1970-01-01, was a Thursday). -/
def startOfWeekMs (t : ℚ) : ℚ :=
  let day := dayOfMs t
  let dow := (day + 3).emod 7
  ((day - dow : ℤ) : ℚ) * msPerDay

/-- `getWeekBounds`: Monday 00:00:00.000 through Sunday 23:59:59.999. -/
def getWeekBounds (t : ℚ) : DateRange :=
  { start := startOfWeekMs t, stop := startOfWeekMs t + 7 * msPerDay - 1 }

/-- `getMonthBounds`. -/
def getMonthBounds (t : ℚ) : DateRange :=
  let c := civilFromDays (dayOfMs t)
  let startDay := daysFromCivil c.1 c.2.1 1
  let nextDay := if c.2.1 = 12 then daysFromCivil (c.1 + 1) 1 1
                 else daysFromCivil c.1 (c.2.1 + 1) 1
  { start := (startDay : ℚ) * msPerDay, stop := (nextDay : ℚ) * msPerDay - 1 }

/-- `getYearBounds`. -/
def getYearBounds (t : ℚ) : DateRange :=
  let c := civilFromDays (dayOfMs t)
  { start := (daysFromCivil c.1 1 1 : ℚ) * msPerDay
    stop := (daysFromCivil (c.1 + 1) 1 1 : ℚ) * msPerDay - 1 }

/-- date-fns `subWeeks(date, 1)`. -/
def subWeeks1 (t : ℚ) : ℚ := t - 7 * msPerDay

/-- date-fns `subMonths(date, 1)`: previous month, day-of-month clamped,
time of day preserved. -/
def subMonths1 (t : ℚ) : ℚ :=
  let day := dayOfMs t
  let msOfDay := t - (day : ℚ) * msPerDay
  let c := civilFromDays day
  let y2 := if c.2.1 = 1 then c.1 - 1 else c.1
  let m2 := if c.2.1 = 1 then 12 else c.2.1 - 1
  let d2 := min c.2.2 (daysInMonth y2 m2)
  (daysFromCivil y2 m2 d2 : ℚ) * msPerDay + msOfDay

/-- date-fns `subYears(date, 1)`: previous year, day-of-month clamped
(Feb 29 becomes Feb 28), time of day preserved. -/
def subYears1 (t : ℚ) : ℚ :=
  let day := dayOfMs t
  let msOfDay := t - (day : ℚ) * msPerDay
  let c := civilFromDays day
  let d2 := min c.2.2 (daysInMonth (c.1 - 1) c.2.1)
  (daysFromCivil (c.1 - 1) c.2.1 d2 : ℚ) * msPerDay + msOfDay

/-- `PeriodType`. -/
inductive PeriodType where
  | week | month | year | custom | all
  deriving Repr, DecidableEq

/-- `getPreviousPeriodBounds` (`src/utils/periodCalculations.ts`): the
`custom` and `all` period types fall into the `default` branch, which
treats them as a week. -/
def getPreviousPeriodBounds (period : PeriodType) (currentDate : ℚ) : DateRange :=
  match period with
  | .week => getWeekBounds (subWeeks1 currentDate)
  | .month => getMonthBounds (subMonths1 currentDate)
  | .year => getYearBounds (subYears1 currentDate)
  | _ => getWeekBounds (subWeeks1 currentDate)

/-- `filterActivitiesByDateRange`: inclusive on both ends. -/
def filterActivitiesByDateRange (activities : List Activity) (dateRange : DateRange) :
    List Activity :=
  activities.filter fun a =>
    decide (a.startTime ≥ dateRange.start ∧ a.startTime ≤ dateRange.stop)

/-! ## Period/trend aggregator (`src/components/charts/ActivityChart.tsx`,
period-statistics service part) -/

/-- Per-sport aggregation bucket of `PeriodStatistics.sportBreakdown`. -/
structure SportAgg where
  count : ℕ
  distance : ℚ
  time : ℚ
  deriving Repr, DecidableEq

/-- `PeriodStatistics`. -/
structure PeriodStatistics where
  period : PeriodType
  dateRange : DateRange
  totalActivities : ℕ
  totalDistance : ℚ
  totalTime : ℚ
  totalCalories : ℚ
  totalElevationGain : ℚ
  averageSpeed : ℚ
  averageHeartRate : Option ℚ
  averageCadence : Option ℚ
  sportBreakdown : List (String × SportAgg)
  deriving Repr, DecidableEq

/-- One step of the sport-breakdown accumulation (insertion-ordered map). -/
def addToBreakdown (acc : List (String × SportAgg)) (a : Activity) :
    List (String × SportAgg) :=
  if acc.any (fun e => e.1 == a.sport) then
    acc.map fun e =>
      if e.1 == a.sport then
        (e.1, ⟨e.2.count + 1, e.2.distance + a.distanceMeters, e.2.time + a.totalTimeSeconds⟩)
      else e
  else acc ++ [(a.sport, ⟨1, a.distanceMeters, a.totalTimeSeconds⟩)]

/-- `aggregateActivities`: sums, elevation via the statistics engine, and
heart-rate/cadence means over only the activities that carry a (truthy)
value. -/
def aggregateActivities (activities : List Activity) (period : PeriodType)
    (dateRange : DateRange) : PeriodStatistics :=
  let totalDistance := activities.foldl (fun s a => s + a.distanceMeters) 0
  let totalTime := activities.foldl (fun s a => s + a.totalTimeSeconds) 0
  let totalCalories := activities.foldl (fun s a => s + a.calories.getD 0) 0
  let totalElevationGain :=
    activities.foldl (fun s a => s + ((calculateStatistics a).elevationGain.getD 0)) 0
  let hrPairs := activities.foldl
    (fun (s : ℚ × ℕ) a =>
      let stats := calculateStatistics a
      if truthy stats.averageHeartRate then
        (s.1 + stats.averageHeartRate.getD 0, s.2 + 1)
      else s) (0, 0)
  let cadencePairs := activities.foldl
    (fun (s : ℚ × ℕ) a =>
      let stats := calculateStatistics a
      if truthy stats.averageCadence then
        (s.1 + stats.averageCadence.getD 0, s.2 + 1)
      else s) (0, 0)
  { period := period
    dateRange := dateRange
    totalActivities := activities.length
    totalDistance := totalDistance
    totalTime := totalTime
    totalCalories := totalCalories
    totalElevationGain := totalElevationGain
    averageSpeed := if totalTime > 0 then totalDistance / totalTime else 0
    averageHeartRate := if hrPairs.2 > 0 then some (hrPairs.1 / (hrPairs.2 : ℚ)) else none
    averageCadence :=
      if cadencePairs.2 > 0 then some (cadencePairs.1 / (cadencePairs.2 : ℚ)) else none
    sportBreakdown := activities.foldl addToBreakdown [] }

/-- `calculatePeriodStats`: select the date range for the period (the
`custom` period type falls into the `default` branch and is treated as a
week), filter, then aggregate. -/
def calculatePeriodStats (activities : List Activity) (period : PeriodType)
    (date : ℚ) : PeriodStatistics :=
  let dateRange : DateRange :=
    match period with
    | .week => getWeekBounds date
    | .month => getMonthBounds date
    | .year => getYearBounds date
    | .all =>
        { start := (listMin (activities.map Activity.startTime)).getD 0
          stop := (listMax (activities.map Activity.startTime)).getD 0 }
    | .custom => getWeekBounds date
  aggregateActivities (filterActivitiesByDateRange activities dateRange) period dateRange

/-- `calculatePercentageChange`: zero baseline yields 100 for growth and 0
otherwise. -/
def calculatePercentageChange (oldValue newValue : ℚ) : ℚ :=
  if oldValue = 0 then (if newValue > 0 then 100 else 0)
  else (newValue - oldValue) / oldValue * 100

/-- The per-metric percentage changes of `ComparisonData`. -/
structure PeriodChanges where
  distance : ℚ
  time : ℚ
  activities : ℚ
  speed : ℚ
  deriving Repr, DecidableEq

/-- `ComparisonData`. -/
structure ComparisonData where
  current : PeriodStatistics
  previous : PeriodStatistics
  changes : PeriodChanges
  deriving Repr, DecidableEq

/-- `comparePeriods`: current-period stats, previous-period stats anchored
at the previous period's start, and the four percentage changes. -/
def comparePeriods (activities : List Activity) (period : PeriodType)
    (currentDate : ℚ) : ComparisonData :=
  let current := calculatePeriodStats activities period currentDate
  let previousDate := (getPreviousPeriodBounds period currentDate).start
  let previous := calculatePeriodStats activities period previousDate
  { current := current
    previous := previous
    changes :=
      { distance := calculatePercentageChange previous.totalDistance current.totalDistance
        time := calculatePercentageChange previous.totalTime current.totalTime
        activities :=
          calculatePercentageChange (previous.totalActivities : ℚ) (current.totalActivities : ℚ)
        speed := calculatePercentageChange previous.averageSpeed current.averageSpeed } }

/-- Accumulated time of a numbered zone bucket in a distribution. -/
def zoneTime (d : ZoneDistribution) : ZoneNumber → ℚ
  | .one => d.zone1
  | .two => d.zone2
  | .three => d.zone3
  | .four => d.zone4
  | .five => d.zone5

/-! ## General lemmas -/

/-- `jsRound` agrees with the mathematical floor of `x + 1/2`. -/
theorem jsRound_def (x : ℚ) : jsRound x = ⌊x + 1/2⌋ := rfl

/-! ## C4: statistics of an activity without trackpoints -/

/-- C4: for every activity whose laps contain zero trackpoints in total
(and `totalTimeSeconds > 0`), `calculateStatistics` returns
`averageSpeed = distanceMeters / totalTimeSeconds`, `maxSpeed = 0`,
distance/time/calories passed through, and every heart-rate, cadence,
altitude, elevation and pace field absent. -/
theorem calculateStatistics_no_trackpoints (A : Activity)
    (h : allTrackpoints A = []) (ht : 0 < A.totalTimeSeconds) :
    (calculateStatistics A).averageSpeed = A.distanceMeters / A.totalTimeSeconds ∧
    (calculateStatistics A).maxSpeed = 0 ∧
    (calculateStatistics A).totalDistance = A.distanceMeters ∧
    (calculateStatistics A).totalTime = A.totalTimeSeconds ∧
    (calculateStatistics A).totalCalories = A.calories ∧
    (calculateStatistics A).averageHeartRate = none ∧
    (calculateStatistics A).maxHeartRate = none ∧
    (calculateStatistics A).minHeartRate = none ∧
    (calculateStatistics A).averageCadence = none ∧
    (calculateStatistics A).maxCadence = none ∧
    (calculateStatistics A).elevationGain = none ∧
    (calculateStatistics A).elevationLoss = none ∧
    (calculateStatistics A).minAltitude = none ∧
    (calculateStatistics A).maxAltitude = none ∧
    (calculateStatistics A).averagePace = none ∧
    (calculateStatistics A).maxPace = none := by
  simp [calculateStatistics, h]

/-- Witness for C4 at a concrete trackpoint-free activity. -/
theorem calculateStatistics_no_trackpoints_witness :
    (calculateStatistics ⟨"w4", "Running", 0, 3000, 10000, none, []⟩).averageSpeed =
        (10000 : ℚ) / 3000 ∧
    (calculateStatistics ⟨"w4", "Running", 0, 3000, 10000, none, []⟩).maxSpeed = 0 := by
  have h := calculateStatistics_no_trackpoints ⟨"w4", "Running", 0, 3000, 10000, none, []⟩
    rfl (by norm_num)
  exact ⟨h.1, h.2.1⟩

/-! ## C6: training-type priority order -/

/-- C6: an input satisfying both the recovery condition and the endurance
condition classifies as `recovery` (first match wins). -/
theorem determineTrainingType_recovery_first (p : ZonePercentages)
    (hrec : p.zone1 + p.zone2 > 60 ∧ p.zone1 > p.zone2)
    (hend : p.zone2 + p.zone3 > 70 ∧ p.zone2 > p.zone3) :
    determineTrainingType p = .recovery := by
  unfold determineTrainingType
  rw [if_pos hrec]

/-- Witness for C6 at a concrete percentage vector satisfying both the
recovery and the endurance conditions. -/
theorem determineTrainingType_recovery_first_witness :
    ((41 : ℤ) + 40 > 60 ∧ (41 : ℤ) > 40) ∧ ((40 : ℤ) + 31 > 70 ∧ (40 : ℤ) > 31) ∧
    determineTrainingType ⟨41, 40, 31, 0, 0, 0⟩ = .recovery :=
  ⟨by decide, by decide,
    determineTrainingType_recovery_first ⟨41, 40, 31, 0, 0, 0⟩ (by decide) (by decide)⟩

/-! ## C2: sum of the rounded zone percentages -/

/-- C2 counterexample: six equal buckets each round to 17, so the sum is
102, outside the claimed `100 ± 1`. -/
theorem calculateZonePercentages_pm1_counterexample :
    (0 : ℚ) < 1 + 1 + 1 + 1 + 1 + 1 ∧
    calculateZonePercentages ⟨1, 1, 1, 1, 1, 1⟩ = ⟨17, 17, 17, 17, 17, 17⟩ ∧
    ¬(100 - 1 ≤ (17 : ℤ) + 17 + 17 + 17 + 17 + 17 ∧
      (17 : ℤ) + 17 + 17 + 17 + 17 + 17 ≤ 100 + 1) := by
  refine ⟨by norm_num, ?_, by decide⟩
  have h6 : (1 : ℚ) + 1 + 1 + 1 + 1 + 1 ≠ 0 := by norm_num
  simp only [calculateZonePercentages, jsRound_def]
  rw [if_neg h6]
  norm_num

/-- C2 (amended): for every distribution with positive total, the sum of
the six independently rounded percentages lies within `100 − 2` and
`100 + 3` (the claimed `100 ± 1` fails, e.g. on six equal buckets). -/
theorem calculateZonePercentages_sum_bounds (d : ZoneDistribution)
    (h : 0 < d.zone1 + d.zone2 + d.zone3 + d.zone4 + d.zone5 + d.unknown) :
    100 - 2 ≤ (calculateZonePercentages d).zone1 + (calculateZonePercentages d).zone2 +
        (calculateZonePercentages d).zone3 + (calculateZonePercentages d).zone4 +
        (calculateZonePercentages d).zone5 + (calculateZonePercentages d).unknown ∧
    (calculateZonePercentages d).zone1 + (calculateZonePercentages d).zone2 +
        (calculateZonePercentages d).zone3 + (calculateZonePercentages d).zone4 +
        (calculateZonePercentages d).zone5 + (calculateZonePercentages d).unknown ≤
      100 + 3 := by
  have ht : d.zone1 + d.zone2 + d.zone3 + d.zone4 + d.zone5 + d.unknown ≠ 0 := ne_of_gt h
  simp only [calculateZonePercentages, jsRound_def]
  rw [if_neg ht]
  dsimp only
  set t := d.zone1 + d.zone2 + d.zone3 + d.zone4 + d.zone5 + d.unknown with htdef
  have hsum : d.zone1 / t * 100 + d.zone2 / t * 100 + d.zone3 / t * 100 +
      d.zone4 / t * 100 + d.zone5 / t * 100 + d.unknown / t * 100 = 100 := by
    field_simp
    ring
  have lb : ∀ x : ℚ, x - 1/2 < (⌊x + 1/2⌋ : ℚ) := by
    intro x
    have h1 := Int.sub_one_lt_floor (x + 1/2)
    linarith
  have ub : ∀ x : ℚ, (⌊x + 1/2⌋ : ℚ) ≤ x + 1/2 := fun x => Int.floor_le _
  constructor
  · have hq : (97 : ℚ) <
        (⌊d.zone1 / t * 100 + 1/2⌋ : ℚ) + (⌊d.zone2 / t * 100 + 1/2⌋ : ℚ) +
        (⌊d.zone3 / t * 100 + 1/2⌋ : ℚ) + (⌊d.zone4 / t * 100 + 1/2⌋ : ℚ) +
        (⌊d.zone5 / t * 100 + 1/2⌋ : ℚ) + (⌊d.unknown / t * 100 + 1/2⌋ : ℚ) := by
      have b1 := lb (d.zone1 / t * 100)
      have b2 := lb (d.zone2 / t * 100)
      have b3 := lb (d.zone3 / t * 100)
      have b4 := lb (d.zone4 / t * 100)
      have b5 := lb (d.zone5 / t * 100)
      have b6 := lb (d.unknown / t * 100)
      linarith
    have hz : (97 : ℤ) <
        ⌊d.zone1 / t * 100 + 1/2⌋ + ⌊d.zone2 / t * 100 + 1/2⌋ +
        ⌊d.zone3 / t * 100 + 1/2⌋ + ⌊d.zone4 / t * 100 + 1/2⌋ +
        ⌊d.zone5 / t * 100 + 1/2⌋ + ⌊d.unknown / t * 100 + 1/2⌋ := by
      exact_mod_cast hq
    omega
  · have hq : (⌊d.zone1 / t * 100 + 1/2⌋ : ℚ) + (⌊d.zone2 / t * 100 + 1/2⌋ : ℚ) +
        (⌊d.zone3 / t * 100 + 1/2⌋ : ℚ) + (⌊d.zone4 / t * 100 + 1/2⌋ : ℚ) +
        (⌊d.zone5 / t * 100 + 1/2⌋ : ℚ) + (⌊d.unknown / t * 100 + 1/2⌋ : ℚ) ≤ 103 := by
      have b1 := ub (d.zone1 / t * 100)
      have b2 := ub (d.zone2 / t * 100)
      have b3 := ub (d.zone3 / t * 100)
      have b4 := ub (d.zone4 / t * 100)
      have b5 := ub (d.zone5 / t * 100)
      have b6 := ub (d.unknown / t * 100)
      linarith
    have hz : ⌊d.zone1 / t * 100 + 1/2⌋ + ⌊d.zone2 / t * 100 + 1/2⌋ +
        ⌊d.zone3 / t * 100 + 1/2⌋ + ⌊d.zone4 / t * 100 + 1/2⌋ +
        ⌊d.zone5 / t * 100 + 1/2⌋ + ⌊d.unknown / t * 100 + 1/2⌋ ≤ (103 : ℤ) := by
      exact_mod_cast hq
    omega

/-- Witness for C2 (amended) on six equal buckets: the sum, 102, obeys the
amended bounds. -/
theorem calculateZonePercentages_sum_bounds_witness :
    (0 : ℚ) < 1 + 1 + 1 + 1 + 1 + 1 ∧
    (100 - 2 ≤ (calculateZonePercentages ⟨1, 1, 1, 1, 1, 1⟩).zone1 +
        (calculateZonePercentages ⟨1, 1, 1, 1, 1, 1⟩).zone2 +
        (calculateZonePercentages ⟨1, 1, 1, 1, 1, 1⟩).zone3 +
        (calculateZonePercentages ⟨1, 1, 1, 1, 1, 1⟩).zone4 +
        (calculateZonePercentages ⟨1, 1, 1, 1, 1, 1⟩).zone5 +
        (calculateZonePercentages ⟨1, 1, 1, 1, 1, 1⟩).unknown ∧
      (calculateZonePercentages ⟨1, 1, 1, 1, 1, 1⟩).zone1 +
        (calculateZonePercentages ⟨1, 1, 1, 1, 1, 1⟩).zone2 +
        (calculateZonePercentages ⟨1, 1, 1, 1, 1, 1⟩).zone3 +
        (calculateZonePercentages ⟨1, 1, 1, 1, 1, 1⟩).zone4 +
        (calculateZonePercentages ⟨1, 1, 1, 1, 1, 1⟩).zone5 +
        (calculateZonePercentages ⟨1, 1, 1, 1, 1, 1⟩).unknown ≤ 100 + 3) :=
  ⟨by norm_num, calculateZonePercentages_sum_bounds ⟨1, 1, 1, 1, 1, 1⟩ (by norm_num)⟩

/-! ## Characterizations of the record-detection passes -/

/-- The distance-pass lookup predicate. -/
def distPred (A : Activity) : PersonalRecord → Bool := fun r =>
  decide (r.type = RecordType.distance ∧ r.category = RecordCategory.longest ∧
    r.sport = A.sport)

/-- The max-speed-pass lookup predicate. -/
def fastPred (A : Activity) : PersonalRecord → Bool := fun r =>
  decide (r.type = RecordType.speed ∧ r.category = RecordCategory.fastest ∧
    r.sport = A.sport)

/-- The 10km-average-speed-pass lookup predicate. -/
def avgPred (A : Activity) : PersonalRecord → Bool := fun r =>
  decide (r.type = RecordType.speed ∧ r.category = RecordCategory.km10 ∧
    r.sport = A.sport)

/-- The time-pass lookup predicate for one distance band. -/
def timePred (A : Activity) (c : RecordCategory) : PersonalRecord → Bool := fun r =>
  decide (r.type = RecordType.time ∧ r.category = c ∧ r.sport = A.sport)

/-- The elevation-pass lookup predicate. -/
def elevPred (A : Activity) : PersonalRecord → Bool := fun r =>
  decide (r.type = RecordType.elevation ∧ r.category = RecordCategory.highest ∧
    r.sport = A.sport)

/-- The calorie-pass lookup predicate (type and sport only). -/
def calPred (A : Activity) : PersonalRecord → Bool := fun r =>
  decide (r.type = RecordType.calories ∧ r.sport = A.sport)

theorem detectDistanceRecords_def (A : Activity) (R : List PersonalRecord) :
    detectDistanceRecords A R =
      match R.find? (distPred A) with
      | none =>
          [{ isRecord := true, recordType := some .distance, category := some .longest,
             value := some A.distanceMeters, previousValue := none,
             improvement := some A.distanceMeters }]
      | some r =>
          if A.distanceMeters > r.value then
            [{ isRecord := true, recordType := some .distance, category := some .longest,
               value := some A.distanceMeters, previousValue := some r.value,
               improvement := some (A.distanceMeters - r.value) }]
          else [] := rfl

theorem detectSpeedRecords_def (A : Activity) (R : List PersonalRecord) :
    detectSpeedRecords A R =
      (match R.find? (fastPred A) with
       | none =>
           [{ isRecord := true, recordType := some .speed, category := some .fastest,
              value := some (calculateStatistics A).maxSpeed, previousValue := none,
              improvement := some (calculateStatistics A).maxSpeed }]
       | some r =>
           if (calculateStatistics A).maxSpeed > r.value then
             [{ isRecord := true, recordType := some .speed, category := some .fastest,
                value := some (calculateStatistics A).maxSpeed, previousValue := some r.value,
                improvement := some ((calculateStatistics A).maxSpeed - r.value) }]
           else []) ++
      (if A.distanceMeters ≥ 9500 ∧ A.distanceMeters ≤ 10500 then
        match R.find? (avgPred A) with
        | none =>
            [{ isRecord := true, recordType := some .speed, category := some .km10,
               value := some (calculateStatistics A).averageSpeed, previousValue := none,
               improvement := some (calculateStatistics A).averageSpeed }]
        | some r =>
            if (calculateStatistics A).averageSpeed > r.value then
              [{ isRecord := true, recordType := some .speed, category := some .km10,
                 value := some (calculateStatistics A).averageSpeed,
                 previousValue := some r.value,
                 improvement := some ((calculateStatistics A).averageSpeed - r.value) }]
            else []
       else []) := rfl

theorem detectTimeStep_def (A : Activity) (R : List PersonalRecord)
    (e : RecordCategory × ℚ × ℚ) :
    detectTimeStep A R e =
      if A.distanceMeters ≥ e.2.1 ∧ A.distanceMeters ≤ e.2.2 then
        match R.find? (timePred A e.1) with
        | none =>
            [{ isRecord := true, recordType := some .time, category := some e.1,
               value := some A.totalTimeSeconds, previousValue := none,
               improvement := some 0 }]
        | some r =>
            if A.totalTimeSeconds < r.value then
              [{ isRecord := true, recordType := some .time, category := some e.1,
                 value := some A.totalTimeSeconds, previousValue := some r.value,
                 improvement := some (r.value - A.totalTimeSeconds) }]
            else []
      else [] := rfl

theorem detectElevationRecords_def (A : Activity) (R : List PersonalRecord) :
    detectElevationRecords A R =
      if truthy (calculateStatistics A).elevationGain = false then []
      else
        match R.find? (elevPred A) with
        | none =>
            [{ isRecord := true, recordType := some .elevation, category := some .highest,
               value := some ((calculateStatistics A).elevationGain.getD 0),
               previousValue := none,
               improvement := some ((calculateStatistics A).elevationGain.getD 0) }]
        | some r =>
            if (calculateStatistics A).elevationGain.getD 0 > r.value then
              [{ isRecord := true, recordType := some .elevation, category := some .highest,
                 value := some ((calculateStatistics A).elevationGain.getD 0),
                 previousValue := some r.value,
                 improvement := some ((calculateStatistics A).elevationGain.getD 0 - r.value) }]
            else []
      := rfl

theorem detectCalorieRecords_def (A : Activity) (R : List PersonalRecord) :
    detectCalorieRecords A R =
      if truthy A.calories = false then []
      else
        match R.find? (calPred A) with
        | none =>
            [{ isRecord := true, recordType := some .calories, category := some .longest,
               value := some (A.calories.getD 0), previousValue := none,
               improvement := some (A.calories.getD 0) }]
        | some r =>
            if A.calories.getD 0 > r.value then
              [{ isRecord := true, recordType := some .calories, category := some .longest,
                 value := some (A.calories.getD 0), previousValue := some r.value,
                 improvement := some (A.calories.getD 0 - r.value) }]
            else []
      := rfl

/-! ## C1: improvement with no prior record -/

/-- C1 counterexample: an activity of 5000 m in 1200 s against an empty
record set.  The time-on-distance pass detects a 5 km record, but its
improvement is `0`, not the activity's `totalTimeSeconds` (1200). -/
theorem detectTimeRecords_no_prior_counterexample :
    detectTimeRecords ⟨"a1", "Running", 0, 1200, 5000, some 600, []⟩ [] =
      [{ isRecord := true, recordType := some .time, category := some .km5,
         value := some 1200, previousValue := none, improvement := some 0 }] ∧
    some (0 : ℚ) ≠
      some (Activity.totalTimeSeconds ⟨"a1", "Running", 0, 1200, 5000, some 600, []⟩) := by
  constructor
  · show List.flatMap _ _ = _
    simp only [DISTANCE_CATEGORIES, List.flatMap_cons, List.flatMap_nil, List.append_nil,
      detectTimeStep_def, List.find?_nil]
    norm_num
  · simp only [ne_eq, Option.some.injEq]
    norm_num

/-- C1 (amended): when no prior record exists for any of the lookups, every
pass except the time pass emits an improvement equal to the new value
itself; the time pass emits an improvement of `0` (not the activity's
`totalTimeSeconds`). -/
theorem detectRecords_no_prior_improvement (A : Activity) (R : List PersonalRecord)
    (hd : R.find? (distPred A) = none)
    (hf : R.find? (fastPred A) = none)
    (h10 : R.find? (avgPred A) = none)
    (htm : ∀ c : RecordCategory, R.find? (timePred A c) = none)
    (he : R.find? (elevPred A) = none)
    (hc : R.find? (calPred A) = none) :
    ∀ res ∈ detectRecords A R,
      (res.recordType = some RecordType.time →
        res.improvement = some 0 ∧ res.value = some A.totalTimeSeconds) ∧
      (res.recordType ≠ some RecordType.time → res.improvement = res.value) := by
  intro res hres
  rw [detectRecords] at hres
  rw [detectDistanceRecords_def, hd] at hres
  rw [detectSpeedRecords_def, hf, h10] at hres
  rw [detectElevationRecords_def, he] at hres
  rw [detectCalorieRecords_def, hc] at hres
  rw [show detectTimeRecords A R = DISTANCE_CATEGORIES.flatMap (detectTimeStep A R) from rfl]
    at hres
  simp only [DISTANCE_CATEGORIES, List.flatMap_cons, List.flatMap_nil, List.append_nil,
    detectTimeStep_def, htm] at hres
  simp only [List.mem_filter, List.mem_append, List.mem_ite_nil_right,
    List.mem_ite_nil_left, List.mem_singleton] at hres
  obtain ⟨hmem, _⟩ := hres
  rcases hmem with ((((rfl | (rfl | ⟨_, rfl⟩)) | hmem) | ⟨_, rfl⟩) | ⟨_, rfl⟩)
  · exact ⟨by simp, fun _ => rfl⟩
  · exact ⟨by simp, fun _ => rfl⟩
  · exact ⟨by simp, fun _ => rfl⟩
  · rcases hmem with ⟨_, rfl⟩ | ⟨_, rfl⟩ | ⟨_, rfl⟩ | ⟨_, rfl⟩ | ⟨_, rfl⟩ <;>
      exact ⟨fun _ => ⟨rfl, rfl⟩, by simp⟩
  · exact ⟨by simp, fun _ => rfl⟩
  · exact ⟨by simp, fun _ => rfl⟩

/-- Witness for C1 (amended): the 5000 m / 1200 s activity against an empty
record set; the emitted time detection carries improvement 0 and every
non-time detection carries its value as improvement. -/
theorem detectRecords_no_prior_improvement_witness :
    (⟨true, some .time, some .km5, some 1200, none, some 0⟩ : RecordDetectionResult) ∈
      detectRecords ⟨"a1", "Running", 0, 1200, 5000, some 600, []⟩ [] ∧
    (⟨true, some .time, some .km5, some 1200, none, some 0⟩ :
      RecordDetectionResult).improvement = some 0 ∧
    (⟨true, some .time, some .km5, some 1200, none, some 0⟩ :
      RecordDetectionResult).value =
      some (Activity.totalTimeSeconds ⟨"a1", "Running", 0, 1200, 5000, some 600, []⟩) := by
  have hmem : (⟨true, some .time, some .km5, some 1200, none, some 0⟩ :
      RecordDetectionResult) ∈
      detectRecords ⟨"a1", "Running", 0, 1200, 5000, some 600, []⟩ [] := by
    norm_num [detectRecords, detectDistanceRecords, detectSpeedRecords, detectTimeRecords,
      detectTimeStep, detectElevationRecords, detectCalorieRecords, DISTANCE_CATEGORIES,
      calculateStatistics, allTrackpoints, truthy, List.find?, List.filter, List.flatMap]
  exact ⟨hmem,
    (detectRecords_no_prior_improvement ⟨"a1", "Running", 0, 1200, 5000, some 600, []⟩ []
      rfl rfl rfl (fun _ => rfl) rfl rfl _ hmem).1 rfl⟩

/-! ## Shape of the members of each detection pass -/

theorem mem_detectDistanceRecords {A : Activity} {R : List PersonalRecord}
    {res : RecordDetectionResult} (h : res ∈ detectDistanceRecords A R) :
    res.isRecord = true ∧ res.recordType = some RecordType.distance ∧
      res.category = some RecordCategory.longest ∧ res.value = some A.distanceMeters := by
  rw [detectDistanceRecords_def] at h
  cases hfo : R.find? (distPred A) with
  | none =>
      rw [hfo] at h
      simp only [List.mem_singleton] at h
      subst h
      exact ⟨rfl, rfl, rfl, rfl⟩
  | some r =>
      rw [hfo] at h
      simp only [List.mem_ite_nil_right, List.mem_singleton] at h
      obtain ⟨-, rfl⟩ := h
      exact ⟨rfl, rfl, rfl, rfl⟩

theorem mem_detectSpeedRecords {A : Activity} {R : List PersonalRecord}
    {res : RecordDetectionResult} (h : res ∈ detectSpeedRecords A R) :
    res.isRecord = true ∧ res.recordType = some RecordType.speed ∧
      ((res.category = some RecordCategory.fastest ∧
          res.value = some (calculateStatistics A).maxSpeed) ∨
       (res.category = some RecordCategory.km10 ∧
          res.value = some (calculateStatistics A).averageSpeed)) := by
  rw [detectSpeedRecords_def] at h
  rw [List.mem_append] at h
  rcases h with h | h
  · cases hfo : R.find? (fastPred A) with
    | none =>
        rw [hfo] at h
        simp only [List.mem_singleton] at h
        subst h
        exact ⟨rfl, rfl, Or.inl ⟨rfl, rfl⟩⟩
    | some r =>
        rw [hfo] at h
        simp only [List.mem_ite_nil_right, List.mem_singleton] at h
        obtain ⟨-, rfl⟩ := h
        exact ⟨rfl, rfl, Or.inl ⟨rfl, rfl⟩⟩
  · rw [List.mem_ite_nil_right] at h
    obtain ⟨-, h⟩ := h
    cases hfo : R.find? (avgPred A) with
    | none =>
        rw [hfo] at h
        simp only [List.mem_singleton] at h
        subst h
        exact ⟨rfl, rfl, Or.inr ⟨rfl, rfl⟩⟩
    | some r =>
        rw [hfo] at h
        simp only [List.mem_ite_nil_right, List.mem_singleton] at h
        obtain ⟨-, rfl⟩ := h
        exact ⟨rfl, rfl, Or.inr ⟨rfl, rfl⟩⟩

theorem mem_detectTimeStep {A : Activity} {R : List PersonalRecord}
    {e : RecordCategory × ℚ × ℚ} {res : RecordDetectionResult}
    (h : res ∈ detectTimeStep A R e) :
    res.isRecord = true ∧ res.recordType = some RecordType.time ∧
      res.category = some e.1 ∧ res.value = some A.totalTimeSeconds ∧
      A.distanceMeters ≥ e.2.1 ∧ A.distanceMeters ≤ e.2.2 := by
  rw [detectTimeStep_def] at h
  rw [List.mem_ite_nil_right] at h
  obtain ⟨hband, h⟩ := h
  cases hfo : R.find? (timePred A e.1) with
  | none =>
      rw [hfo] at h
      simp only [List.mem_singleton] at h
      subst h
      exact ⟨rfl, rfl, rfl, rfl, hband⟩
  | some r =>
      rw [hfo] at h
      simp only [List.mem_ite_nil_right, List.mem_singleton] at h
      obtain ⟨-, rfl⟩ := h
      exact ⟨rfl, rfl, rfl, rfl, hband⟩

theorem mem_detectTimeRecords {A : Activity} {R : List PersonalRecord}
    {res : RecordDetectionResult} (h : res ∈ detectTimeRecords A R) :
    ∃ e ∈ DISTANCE_CATEGORIES, res ∈ detectTimeStep A R e := by
  rw [show detectTimeRecords A R = DISTANCE_CATEGORIES.flatMap (detectTimeStep A R)
    from rfl] at h
  exact List.mem_flatMap.mp h

theorem mem_detectElevationRecords {A : Activity} {R : List PersonalRecord}
    {res : RecordDetectionResult} (h : res ∈ detectElevationRecords A R) :
    res.isRecord = true ∧ res.recordType = some RecordType.elevation ∧
      res.category = some RecordCategory.highest ∧
      res.value = some ((calculateStatistics A).elevationGain.getD 0) := by
  rw [detectElevationRecords_def] at h
  rw [List.mem_ite_nil_left] at h
  obtain ⟨-, h⟩ := h
  cases hfo : R.find? (elevPred A) with
  | none =>
      rw [hfo] at h
      simp only [List.mem_singleton] at h
      subst h
      exact ⟨rfl, rfl, rfl, rfl⟩
  | some r =>
      rw [hfo] at h
      simp only [List.mem_ite_nil_right, List.mem_singleton] at h
      obtain ⟨-, rfl⟩ := h
      exact ⟨rfl, rfl, rfl, rfl⟩

theorem mem_detectCalorieRecords {A : Activity} {R : List PersonalRecord}
    {res : RecordDetectionResult} (h : res ∈ detectCalorieRecords A R) :
    res.isRecord = true ∧ res.recordType = some RecordType.calories ∧
      res.category = some RecordCategory.longest ∧
      res.value = some (A.calories.getD 0) := by
  rw [detectCalorieRecords_def] at h
  rw [List.mem_ite_nil_left] at h
  obtain ⟨-, h⟩ := h
  cases hfo : R.find? (calPred A) with
  | none =>
      rw [hfo] at h
      simp only [List.mem_singleton] at h
      subst h
      exact ⟨rfl, rfl, rfl, rfl⟩
  | some r =>
      rw [hfo] at h
      simp only [List.mem_ite_nil_right, List.mem_singleton] at h
      obtain ⟨-, rfl⟩ := h
      exact ⟨rfl, rfl, rfl, rfl⟩

/-! ## C5: inverted time comparison on the 5 km band -/

/-- C5: for an activity in the 5 km band whose prior (time, 5km, sport)
record has value 1200, a total time of 1100 is flagged as a record with
improvement 100, and a total time of 1300 produces no time record for that
band. -/
theorem detectRecords_time_inverted (A : Activity) (R : List PersonalRecord)
    (r : PersonalRecord)
    (hband : A.distanceMeters ≥ 4500 ∧ A.distanceMeters ≤ 5500)
    (hfind : R.find? (timePred A .km5) = some r)
    (hval : r.value = 1200) :
    (A.totalTimeSeconds = 1100 →
      ∃ res ∈ detectRecords A R, res.recordType = some RecordType.time ∧
        res.category = some RecordCategory.km5 ∧ res.improvement = some 100) ∧
    (A.totalTimeSeconds = 1300 →
      ∀ res ∈ detectRecords A R,
        ¬(res.recordType = some RecordType.time ∧
          res.category = some RecordCategory.km5)) := by
  constructor
  · intro htime
    refine ⟨{ isRecord := true, recordType := some .time, category := some .km5,
              value := some A.totalTimeSeconds, previousValue := some r.value,
              improvement := some (r.value - A.totalTimeSeconds) }, ?_, rfl, rfl, ?_⟩
    · rw [detectRecords, List.mem_filter]
      refine ⟨?_, rfl⟩
      simp only [List.mem_append]
      refine Or.inl (Or.inl (Or.inr ?_))
      rw [show detectTimeRecords A R = DISTANCE_CATEGORIES.flatMap (detectTimeStep A R)
        from rfl]
      rw [List.mem_flatMap]
      refine ⟨(.km5, 4500, 5500), by simp [DISTANCE_CATEGORIES], ?_⟩
      rw [detectTimeStep_def, if_pos hband, hfind]
      simp only [List.mem_ite_nil_right, List.mem_singleton]
      refine ⟨by rw [hval, htime]; norm_num, by simp⟩
    · rw [hval, htime]
      norm_num
  · intro htime res hres hcon
    obtain ⟨hty, hcat⟩ := hcon
    rw [detectRecords, List.mem_filter] at hres
    obtain ⟨hmem, -⟩ := hres
    simp only [List.mem_append] at hmem
    rcases hmem with (((hmem | hmem) | hmem) | hmem) | hmem
    · rw [(mem_detectDistanceRecords hmem).2.1] at hty
      simp at hty
    · rw [(mem_detectSpeedRecords hmem).2.1] at hty
      simp at hty
    · obtain ⟨e, he, hstep⟩ := mem_detectTimeRecords hmem
      have hshape := mem_detectTimeStep hstep
      have hecat : e.1 = RecordCategory.km5 := by
        have := hshape.2.2.1
        rw [hcat] at this
        exact (Option.some.injEq _ _).mp this.symm
      have he5 : e = (RecordCategory.km5, (4500 : ℚ), (5500 : ℚ)) := by
        simp only [DISTANCE_CATEGORIES, List.mem_cons, List.not_mem_nil, or_false] at he
        rcases he with rfl | rfl | rfl | rfl | rfl
        · exact absurd hecat (by decide)
        · rfl
        · exact absurd hecat (by decide)
        · exact absurd hecat (by decide)
        · exact absurd hecat (by decide)
      rw [he5] at hstep
      rw [detectTimeStep_def, if_pos hband, hfind] at hstep
      simp only [List.mem_ite_nil_right, List.mem_singleton] at hstep
      exact absurd hstep.1 (by rw [hval, htime]; norm_num)
    · rw [(mem_detectElevationRecords hmem).2.1] at hty
      simp at hty
    · rw [(mem_detectCalorieRecords hmem).2.1] at hty
      simp at hty

/-- Witness for C5: a concrete 5 km activity against a concrete prior
1200 s record, exercised at both total times. -/
theorem detectRecords_time_inverted_witness :
    ((5000 : ℚ) ≥ 4500 ∧ (5000 : ℚ) ≤ 5500) ∧
    ((1100 : ℚ) = 1100 →
      ∃ res ∈ detectRecords ⟨"a5", "Running", 0, 1100, 5000, none, []⟩
          [⟨"r5", .time, .km5, 1200, "s", "x", 0, "Running", none, none, false⟩],
        res.recordType = some RecordType.time ∧
        res.category = some RecordCategory.km5 ∧ res.improvement = some 100) := by
  have h := detectRecords_time_inverted ⟨"a5", "Running", 0, 1100, 5000, none, []⟩
    [⟨"r5", .time, .km5, 1200, "s", "x", 0, "Running", none, none, false⟩]
    ⟨"r5", .time, .km5, 1200, "s", "x", 0, "Running", none, none, false⟩
    (by norm_num) (by rw [List.find?_cons_of_pos] <;> simp [timePred]) rfl
  exact ⟨by norm_num, fun _ => h.1 rfl⟩

/-! ## C8: dominant-zone selection -/

/-- C8: the dominant zone ignores the unknown bucket entirely, is `none`
exactly when all five zone times are zero, and otherwise is the
largest-time zone with ties broken by the lowest zone number. -/
theorem getDominantZone_spec (d : ZoneDistribution)
    (hnn : 0 ≤ d.zone1 ∧ 0 ≤ d.zone2 ∧ 0 ≤ d.zone3 ∧ 0 ≤ d.zone4 ∧ 0 ≤ d.zone5) :
    (∀ u, getDominantZone { d with unknown := u } = getDominantZone d) ∧
    (getDominantZone d = none ↔
      d.zone1 = 0 ∧ d.zone2 = 0 ∧ d.zone3 = 0 ∧ d.zone4 = 0 ∧ d.zone5 = 0) ∧
    (∀ z, getDominantZone d = some z →
      (∀ w, zoneTime d w ≤ zoneTime d z) ∧
      (∀ w, w.toNat < z.toNat → zoneTime d w < zoneTime d z)) := by
  obtain ⟨h1, h2, h3, h4, h5⟩ := hnn
  refine ⟨fun u => rfl, ?_, ?_⟩ <;>
    simp only [getDominantZone, List.foldl_cons, List.foldl_nil] <;>
    split_ifs <;>
    dsimp only at * <;>
    first
      | (refine iff_of_true rfl ⟨?_, ?_, ?_, ?_, ?_⟩ <;> linarith)
      | (refine iff_of_false (by simp) ?_
         rintro ⟨e1, e2, e3, e4, e5⟩
         linarith)
      | (rintro z hz; cases hz; done)
      | (rintro z hz
         injection hz with hz
         subst hz
         exact ⟨fun v => by cases v <;> simp only [zoneTime] <;> linarith,
           fun v hv => by
             cases v <;> simp only [zoneTime, ZoneNumber.toNat] at hv ⊢ <;> linarith⟩)

/-- Witness for C8 at a concrete distribution with a zone-1/zone-2 tie and
a dominating unknown bucket. -/
theorem getDominantZone_spec_witness :
    ((0 : ℚ) ≤ 3 ∧ (0 : ℚ) ≤ 3 ∧ (0 : ℚ) ≤ 1 ∧ (0 : ℚ) ≤ 0 ∧ (0 : ℚ) ≤ 0) ∧
    (∀ u, getDominantZone ⟨3, 3, 1, 0, 0, u⟩ = getDominantZone ⟨3, 3, 1, 0, 0, 100⟩) ∧
    (getDominantZone ⟨3, 3, 1, 0, 0, 100⟩ = none ↔
      (3 : ℚ) = 0 ∧ (3 : ℚ) = 0 ∧ (1 : ℚ) = 0 ∧ (0 : ℚ) = 0 ∧ (0 : ℚ) = 0) ∧
    (∀ z, getDominantZone ⟨3, 3, 1, 0, 0, 100⟩ = some z →
      (∀ w, zoneTime ⟨3, 3, 1, 0, 0, 100⟩ w ≤ zoneTime ⟨3, 3, 1, 0, 0, 100⟩ z) ∧
      (∀ w, w.toNat < z.toNat →
        zoneTime ⟨3, 3, 1, 0, 0, 100⟩ w < zoneTime ⟨3, 3, 1, 0, 0, 100⟩ z)) :=
  ⟨by norm_num, getDominantZone_spec ⟨3, 3, 1, 0, 0, 100⟩ (by norm_num)⟩

/-! ## C7: zone lookup clamping and the unknown fallback -/

/-- C7: over an ascending list of five zones (each non-empty, each ending
strictly below the next), a value inside a zone's range maps to that zone,
a value above zone 5 clamps to zone 5, a value below zone 1 clamps to
zone 1, a value in an inter-zone gap maps to `none`, and
`calculateTimeInZones` books the duration of an interval led by such a gap
value into the unknown bucket. -/
theorem getZoneForHeartRate_spec (z1 z2 z3 z4 z5 : HeartRateZone) (hr : ℚ)
    (hzn : z1.zone = .one ∧ z2.zone = .two ∧ z3.zone = .three ∧ z4.zone = .four ∧
      z5.zone = .five)
    (hne : z1.minHR ≤ z1.maxHR ∧ z2.minHR ≤ z2.maxHR ∧ z3.minHR ≤ z3.maxHR ∧
      z4.minHR ≤ z4.maxHR ∧ z5.minHR ≤ z5.maxHR)
    (hasc : z1.maxHR < z2.minHR ∧ z2.maxHR < z3.minHR ∧ z3.maxHR < z4.minHR ∧
      z4.maxHR < z5.minHR) :
    (∀ z ∈ [z1, z2, z3, z4, z5], z.minHR ≤ hr ∧ hr ≤ z.maxHR →
      getZoneForHeartRate hr [z1, z2, z3, z4, z5] = some z.zone) ∧
    (hr > z5.maxHR → getZoneForHeartRate hr [z1, z2, z3, z4, z5] = some ZoneNumber.five) ∧
    (hr < z1.minHR → getZoneForHeartRate hr [z1, z2, z3, z4, z5] = some ZoneNumber.one) ∧
    ((∀ z ∈ [z1, z2, z3, z4, z5], ¬(z.minHR ≤ hr ∧ hr ≤ z.maxHR)) →
      ¬hr > z5.maxHR → ¬hr < z1.minHR →
      getZoneForHeartRate hr [z1, z2, z3, z4, z5] = none) ∧
    (∀ τ0 τ1 : ℚ, getZoneForHeartRate hr [z1, z2, z3, z4, z5] = none →
      calculateTimeInZones
          ⟨"g", "Run", 0, 0, 0, none,
            [⟨0, 0, 0, none, none, none, none, none,
              [{ time := τ0, heartRate := some hr }, { time := τ1 }]⟩]⟩
          [z1, z2, z3, z4, z5] =
        ⟨0, 0, 0, 0, 0, (τ1 - τ0) / 1000⟩) := by
  obtain ⟨hn1, hn2, hn3, hn4, hn5⟩ := hne
  obtain ⟨ha1, ha2, ha3, ha4⟩ := hasc
  have pof : ∀ w : HeartRateZone, w.minHR ≤ hr → hr ≤ w.maxHR →
      zonePred hr w = true := by
    intro w hlo hhi
    simp only [zonePred, decide_eq_true_eq, ge_iff_le]
    exact ⟨hlo, hhi⟩
  have pnotHigh : ∀ w : HeartRateZone, w.maxHR < hr →
      ¬zonePred hr w = true := by
    intro w hlt
    simp only [zonePred, decide_eq_true_eq, not_and, ge_iff_le]
    intro _
    exact not_le.mpr hlt
  have pnotLow : ∀ w : HeartRateZone, hr < w.minHR →
      ¬zonePred hr w = true := by
    intro w hlt
    simp only [zonePred, decide_eq_true_eq, ge_iff_le, not_and]
    intro hle
    exact absurd hle (not_le.mpr hlt)
  refine ⟨?_, ?_, ?_, ?_, ?_⟩
  · intro z hz hin
    obtain ⟨hlo, hhi⟩ := hin
    simp only [List.mem_cons, List.not_mem_nil, or_false] at hz
    rcases hz with rfl | rfl | rfl | rfl | rfl
    · rw [getZoneForHeartRate,
        List.find?_cons_of_pos _ (pof z hlo hhi)]
    · rw [getZoneForHeartRate,
        List.find?_cons_of_neg _ (pnotHigh z1 (by linarith)),
        List.find?_cons_of_pos _ (pof z hlo hhi)]
    · rw [getZoneForHeartRate,
        List.find?_cons_of_neg _ (pnotHigh z1 (by linarith)),
        List.find?_cons_of_neg _ (pnotHigh z2 (by linarith)),
        List.find?_cons_of_pos _ (pof z hlo hhi)]
    · rw [getZoneForHeartRate,
        List.find?_cons_of_neg _ (pnotHigh z1 (by linarith)),
        List.find?_cons_of_neg _ (pnotHigh z2 (by linarith)),
        List.find?_cons_of_neg _ (pnotHigh z3 (by linarith)),
        List.find?_cons_of_pos _ (pof z hlo hhi)]
    · rw [getZoneForHeartRate,
        List.find?_cons_of_neg _ (pnotHigh z1 (by linarith)),
        List.find?_cons_of_neg _ (pnotHigh z2 (by linarith)),
        List.find?_cons_of_neg _ (pnotHigh z3 (by linarith)),
        List.find?_cons_of_neg _ (pnotHigh z4 (by linarith)),
        List.find?_cons_of_pos _ (pof z hlo hhi)]
  · intro h
    rw [getZoneForHeartRate,
      List.find?_cons_of_neg _ (pnotHigh z1 (by linarith)),
      List.find?_cons_of_neg _ (pnotHigh z2 (by linarith)),
      List.find?_cons_of_neg _ (pnotHigh z3 (by linarith)),
      List.find?_cons_of_neg _ (pnotHigh z4 (by linarith)),
      List.find?_cons_of_neg _ (pnotHigh z5 (by linarith)),
      List.find?_nil]
    simp [h]
  · intro h
    have hnotAbove : ¬hr > z5.maxHR := by simp only [not_lt]; linarith
    rw [getZoneForHeartRate,
      List.find?_cons_of_neg _ (pnotLow z1 (by linarith)),
      List.find?_cons_of_neg _ (pnotLow z2 (by linarith)),
      List.find?_cons_of_neg _ (pnotLow z3 (by linarith)),
      List.find?_cons_of_neg _ (pnotLow z4 (by linarith)),
      List.find?_cons_of_neg _ (pnotLow z5 (by linarith)),
      List.find?_nil]
    simp [h, hnotAbove]
  · intro hno hnotAbove hnotBelow
    have pn : ∀ w ∈ [z1, z2, z3, z4, z5], ¬zonePred hr w = true := by
      intro w hw
      have := hno w hw
      simp only [zonePred, decide_eq_true_eq, ge_iff_le]
      exact this
    rw [getZoneForHeartRate,
      List.find?_cons_of_neg _ (pn z1 (by simp)),
      List.find?_cons_of_neg _ (pn z2 (by simp)),
      List.find?_cons_of_neg _ (pn z3 (by simp)),
      List.find?_cons_of_neg _ (pn z4 (by simp)),
      List.find?_cons_of_neg _ (pn z5 (by simp)),
      List.find?_nil]
    simp [hnotAbove, hnotBelow]
  · intro τ0 τ1 hnone
    simp only [calculateTimeInZones, List.map_cons, List.map_nil, List.flatten_cons,
      List.flatten_nil, List.append_nil, lapIntervals, List.foldl_cons, List.foldl_nil]
    by_cases h0 : hr = 0
    · simp [addInterval, truthy, h0]
    · simp [addInterval, truthy, h0, hnone]

/-- Witness for C7: five concrete manual zones with gaps; the value 115
falls in the gap between zones 1 and 2, maps to no zone, and its interval
is booked as unknown. -/
theorem getZoneForHeartRate_spec_witness :
    getZoneForHeartRate 115
        [⟨.one, 100, 110, 0, 0⟩, ⟨.two, 120, 130, 0, 0⟩, ⟨.three, 140, 150, 0, 0⟩,
         ⟨.four, 160, 170, 0, 0⟩, ⟨.five, 180, 190, 0, 0⟩] = none ∧
    calculateTimeInZones
        ⟨"g", "Run", 0, 0, 0, none,
          [⟨0, 0, 0, none, none, none, none, none,
            [{ time := 0, heartRate := some 115 }, { time := 5000 }]⟩]⟩
        [⟨.one, 100, 110, 0, 0⟩, ⟨.two, 120, 130, 0, 0⟩, ⟨.three, 140, 150, 0, 0⟩,
         ⟨.four, 160, 170, 0, 0⟩, ⟨.five, 180, 190, 0, 0⟩] =
      ⟨0, 0, 0, 0, 0, (5000 - 0) / 1000⟩ := by
  have h := getZoneForHeartRate_spec ⟨.one, 100, 110, 0, 0⟩ ⟨.two, 120, 130, 0, 0⟩
    ⟨.three, 140, 150, 0, 0⟩ ⟨.four, 160, 170, 0, 0⟩ ⟨.five, 180, 190, 0, 0⟩ 115
    ⟨rfl, rfl, rfl, rfl, rfl⟩ (by norm_num) (by norm_num)
  have hnone := h.2.2.2.1
    (by
      intro z hz
      simp only [List.mem_cons, List.not_mem_nil, or_false] at hz
      rcases hz with rfl | rfl | rfl | rfl | rfl <;> norm_num)
    (by norm_num) (by norm_num)
  exact ⟨hnone, h.2.2.2.2 0 5000 hnone⟩

/-! ## C10: a zero heart rate is booked as unknown -/

/-- C10: JavaScript's `!hr` treats a heart rate of exactly 0 bpm like a
missing one: the classification step books the interval into the unknown
bucket, so the clamp-below-zone-1 rule is never applied to a zero heart
rate. -/
theorem calculateTimeInZones_zero_heartRate (zones : List HeartRateZone) :
    (∀ (d : ZoneDistribution) (dur : ℚ),
      addInterval zones d (some 0, dur) = addInterval zones d (none, dur) ∧
      addInterval zones d (some 0, dur) = { d with unknown := d.unknown + dur }) ∧
    (∀ τ0 τ1 : ℚ,
      calculateTimeInZones
          ⟨"z", "Run", 0, 0, 0, none,
            [⟨0, 0, 0, none, none, none, none, none,
              [{ time := τ0, heartRate := some 0 }, { time := τ1 }]⟩]⟩ zones =
        ⟨0, 0, 0, 0, 0, (τ1 - τ0) / 1000⟩) := by
  constructor
  · intro d dur
    constructor <;> simp [addInterval, truthy]
  · intro τ0 τ1
    simp only [calculateTimeInZones, List.map_cons, List.map_nil, List.flatten_cons,
      List.flatten_nil, List.append_nil, lapIntervals, List.foldl_cons, List.foldl_nil]
    simp [addInterval, truthy]

/-! ## C9: period comparison and the zero-baseline convention -/

/-- `Rat.floor` agrees with the mathematical floor. -/
theorem ratFloor_eq (q : ℚ) : q.floor = ⌊q⌋ := rfl

/-- C9: every metric of `comparePeriods` goes through
`calculatePercentageChange`, whose zero-baseline convention yields 100 for
growth from zero and 0 otherwise; in particular a zero previous distance
with positive current distance yields a distance change of 100. -/
theorem comparePeriods_zero_baseline (activities : List Activity) (period : PeriodType)
    (currentDate : ℚ) :
    ((comparePeriods activities period currentDate).changes.distance =
        calculatePercentageChange
          (comparePeriods activities period currentDate).previous.totalDistance
          (comparePeriods activities period currentDate).current.totalDistance ∧
      (comparePeriods activities period currentDate).changes.time =
        calculatePercentageChange
          (comparePeriods activities period currentDate).previous.totalTime
          (comparePeriods activities period currentDate).current.totalTime ∧
      (comparePeriods activities period currentDate).changes.activities =
        calculatePercentageChange
          ((comparePeriods activities period currentDate).previous.totalActivities : ℚ)
          ((comparePeriods activities period currentDate).current.totalActivities : ℚ) ∧
      (comparePeriods activities period currentDate).changes.speed =
        calculatePercentageChange
          (comparePeriods activities period currentDate).previous.averageSpeed
          (comparePeriods activities period currentDate).current.averageSpeed) ∧
    (∀ o n : ℚ, o = 0 → calculatePercentageChange o n = if n > 0 then 100 else 0) ∧
    (∀ o n : ℚ, o ≠ 0 → calculatePercentageChange o n = (n - o) / o * 100) ∧
    ((comparePeriods activities period currentDate).previous.totalDistance = 0 →
      0 < (comparePeriods activities period currentDate).current.totalDistance →
      (comparePeriods activities period currentDate).changes.distance = 100) := by
  refine ⟨⟨rfl, rfl, rfl, rfl⟩, ?_, ?_, ?_⟩
  · intro o n ho
    simp [calculatePercentageChange, ho]
  · intro o n ho
    simp [calculatePercentageChange, ho]
  · intro h0 hpos
    simp only [comparePeriods] at h0 hpos ⊢
    simp [calculatePercentageChange, h0, hpos]

/-- Witness for C9: one activity at the epoch against an empty previous
week; the previous-period distance is 0, the current one positive, and the
distance change is exactly 100. -/
theorem comparePeriods_zero_baseline_witness :
    (comparePeriods [⟨"w9", "Running", 0, 3000, 5000, none, []⟩]
        .week 0).previous.totalDistance = 0 ∧
    0 < (comparePeriods [⟨"w9", "Running", 0, 3000, 5000, none, []⟩]
        .week 0).current.totalDistance ∧
    (comparePeriods [⟨"w9", "Running", 0, 3000, 5000, none, []⟩]
        .week 0).changes.distance = 100 := by
  have h0 : (comparePeriods [⟨"w9", "Running", 0, 3000, 5000, none, []⟩]
      .week 0).previous.totalDistance = 0 := by
    norm_num [comparePeriods, calculatePeriodStats, getPreviousPeriodBounds, getWeekBounds,
      subWeeks1, startOfWeekMs, dayOfMs, msPerDay, ratFloor_eq, filterActivitiesByDateRange,
      aggregateActivities, List.filter]
  have hpos : 0 < (comparePeriods [⟨"w9", "Running", 0, 3000, 5000, none, []⟩]
      .week 0).current.totalDistance := by
    norm_num [comparePeriods, calculatePeriodStats, getPreviousPeriodBounds, getWeekBounds,
      subWeeks1, startOfWeekMs, dayOfMs, msPerDay, ratFloor_eq, filterActivitiesByDateRange,
      aggregateActivities, List.filter]
  exact ⟨h0, hpos,
    (comparePeriods_zero_baseline [⟨"w9", "Running", 0, 3000, 5000, none, []⟩]
      .week 0).2.2.2 h0 hpos⟩

/-! ## C3: re-running detection against its own output -/

theorem pass_sub_detectRecords {A : Activity} {R : List PersonalRecord}
    {res : RecordDetectionResult}
    (h : res ∈ detectDistanceRecords A R ∨ res ∈ detectSpeedRecords A R ∨
      res ∈ detectTimeRecords A R ∨ res ∈ detectElevationRecords A R ∨
      res ∈ detectCalorieRecords A R) :
    res ∈ detectRecords A R := by
  have hisr : res.isRecord = true := by
    rcases h with h | h | h | h | h
    · exact (mem_detectDistanceRecords h).1
    · exact (mem_detectSpeedRecords h).1
    · obtain ⟨e, -, hstep⟩ := mem_detectTimeRecords h
      exact (mem_detectTimeStep hstep).1
    · exact (mem_detectElevationRecords h).1
    · exact (mem_detectCalorieRecords h).1
  rw [detectRecords, List.mem_filter]
  refine ⟨?_, hisr⟩
  simp only [List.mem_append]
  tauto

/-- Every record materialized from a detection run carries the sport of the
activity and a value matching its own pass's lookup predicate. -/
theorem created_value {A : Activity} {R : List PersonalRecord} {n : PersonalRecord}
    (hn : n ∈ (detectRecords A R).map (fun dd => createRecordFromDetection dd A)) :
    (distPred A n = true → n.value = A.distanceMeters) ∧
    (fastPred A n = true → n.value = (calculateStatistics A).maxSpeed) ∧
    (avgPred A n = true → n.value = (calculateStatistics A).averageSpeed) ∧
    (∀ c, timePred A c n = true → n.value = A.totalTimeSeconds) ∧
    (elevPred A n = true → n.value = (calculateStatistics A).elevationGain.getD 0) ∧
    (calPred A n = true → n.value = A.calories.getD 0) := by
  rw [List.mem_map] at hn
  obtain ⟨res, hres, rfl⟩ := hn
  rw [detectRecords, List.mem_filter] at hres
  obtain ⟨hmem, -⟩ := hres
  simp only [List.mem_append] at hmem
  rcases hmem with (((hd | hs) | htm) | hel) | hca
  · obtain ⟨-, hty, hcat, hval⟩ := mem_detectDistanceRecords hd
    refine ⟨fun hp => ?_, fun hp => ?_, fun hp => ?_, fun c hp => ?_, fun hp => ?_,
      fun hp => ?_⟩ <;>
      simp [distPred, fastPred, avgPred, timePred, elevPred, calPred,
        createRecordFromDetection, hty, hcat, hval, Option.get!_some] at hp ⊢
  · obtain ⟨-, hty, hor⟩ := mem_detectSpeedRecords hs
    rcases hor with ⟨hcat, hval⟩ | ⟨hcat, hval⟩ <;>
      refine ⟨fun hp => ?_, fun hp => ?_, fun hp => ?_, fun c hp => ?_, fun hp => ?_,
        fun hp => ?_⟩ <;>
      simp [distPred, fastPred, avgPred, timePred, elevPred, calPred,
        createRecordFromDetection, hty, hcat, hval, Option.get!_some] at hp ⊢
  · obtain ⟨e, -, hstep⟩ := mem_detectTimeRecords htm
    obtain ⟨-, hty, hcat, hval, -⟩ := mem_detectTimeStep hstep
    refine ⟨fun hp => ?_, fun hp => ?_, fun hp => ?_, fun c hp => ?_, fun hp => ?_,
      fun hp => ?_⟩ <;>
      simp [distPred, fastPred, avgPred, timePred, elevPred, calPred,
        createRecordFromDetection, hty, hcat, hval, Option.get!_some] at hp ⊢
  · obtain ⟨-, hty, hcat, hval⟩ := mem_detectElevationRecords hel
    refine ⟨fun hp => ?_, fun hp => ?_, fun hp => ?_, fun c hp => ?_, fun hp => ?_,
      fun hp => ?_⟩ <;>
      simp [distPred, fastPred, avgPred, timePred, elevPred, calPred,
        createRecordFromDetection, hty, hcat, hval, Option.get!_some] at hp ⊢
  · obtain ⟨-, hty, hcat, hval⟩ := mem_detectCalorieRecords hca
    refine ⟨fun hp => ?_, fun hp => ?_, fun hp => ?_, fun c hp => ?_, fun hp => ?_,
      fun hp => ?_⟩ <;>
      simp [distPred, fastPred, avgPred, timePred, elevPred, calPred,
        createRecordFromDetection, hty, hcat, hval, Option.get!_some] at hp ⊢

theorem created_distPred {A : Activity} {R : List PersonalRecord}
    {res : RecordDetectionResult} (h : res ∈ detectDistanceRecords A R) :
    distPred A (createRecordFromDetection res A) = true := by
  obtain ⟨-, hty, hcat, -⟩ := mem_detectDistanceRecords h
  simp [distPred, createRecordFromDetection, hty, hcat, Option.get!_some]

theorem created_fastPred {A : Activity} {R : List PersonalRecord}
    {res : RecordDetectionResult} (h : res ∈ detectSpeedRecords A R)
    (hcat : res.category = some RecordCategory.fastest) :
    fastPred A (createRecordFromDetection res A) = true := by
  obtain ⟨-, hty, -⟩ := mem_detectSpeedRecords h
  simp [fastPred, createRecordFromDetection, hty, hcat, Option.get!_some]

theorem created_avgPred {A : Activity} {R : List PersonalRecord}
    {res : RecordDetectionResult} (h : res ∈ detectSpeedRecords A R)
    (hcat : res.category = some RecordCategory.km10) :
    avgPred A (createRecordFromDetection res A) = true := by
  obtain ⟨-, hty, -⟩ := mem_detectSpeedRecords h
  simp [avgPred, createRecordFromDetection, hty, hcat, Option.get!_some]

theorem created_timePred {A : Activity} {R : List PersonalRecord}
    {e : RecordCategory × ℚ × ℚ} {res : RecordDetectionResult}
    (h : res ∈ detectTimeStep A R e) :
    timePred A e.1 (createRecordFromDetection res A) = true := by
  obtain ⟨-, hty, hcat, -, -⟩ := mem_detectTimeStep h
  simp [timePred, createRecordFromDetection, hty, hcat, Option.get!_some]

theorem created_elevPred {A : Activity} {R : List PersonalRecord}
    {res : RecordDetectionResult} (h : res ∈ detectElevationRecords A R) :
    elevPred A (createRecordFromDetection res A) = true := by
  obtain ⟨-, hty, hcat, -⟩ := mem_detectElevationRecords h
  simp [elevPred, createRecordFromDetection, hty, hcat, Option.get!_some]

theorem created_calPred {A : Activity} {R : List PersonalRecord}
    {res : RecordDetectionResult} (h : res ∈ detectCalorieRecords A R) :
    calPred A (createRecordFromDetection res A) = true := by
  obtain ⟨-, hty, hcat, -⟩ := mem_detectCalorieRecords h
  simp [calPred, createRecordFromDetection, hty, Option.get!_some]

/-- C3 (amended): if the records materialized from a detection run are
placed *in front of* the existing records, a second run of `detectRecords`
on the same activity produces no detection results at all — in particular
none whose (type, category, sport) triple the first run already produced.
(With the new records appended *after* the existing ones the property
fails, see the counterexample: `find` then still returns the stale record
and the same detection fires again.) -/
theorem detectRecords_prepend_idempotent (A : Activity) (R : List PersonalRecord) :
    detectRecords A
      ((detectRecords A R).map (fun dd => createRecordFromDetection dd A) ++ R) = [] := by
  set N := (detectRecords A R).map (fun dd => createRecordFromDetection dd A) with hN
  have hval : ∀ {n : PersonalRecord}, n ∈ N →
      (distPred A n = true → n.value = A.distanceMeters) ∧
      (fastPred A n = true → n.value = (calculateStatistics A).maxSpeed) ∧
      (avgPred A n = true → n.value = (calculateStatistics A).averageSpeed) ∧
      (∀ c, timePred A c n = true → n.value = A.totalTimeSeconds) ∧
      (elevPred A n = true → n.value = (calculateStatistics A).elevationGain.getD 0) ∧
      (calPred A n = true → n.value = A.calories.getD 0) := by
    intro n hn
    rw [hN] at hn
    exact created_value hn
  have hmemN : ∀ {res : RecordDetectionResult},
      (res ∈ detectDistanceRecords A R ∨ res ∈ detectSpeedRecords A R ∨
        res ∈ detectTimeRecords A R ∨ res ∈ detectElevationRecords A R ∨
        res ∈ detectCalorieRecords A R) →
      createRecordFromDetection res A ∈ N := by
    intro res h
    rw [hN]
    exact List.mem_map_of_mem _ (pass_sub_detectRecords h)
  have hd' : detectDistanceRecords A (N ++ R) = [] := by
    rw [detectDistanceRecords_def, List.find?_append]
    rcases hfN : N.find? (distPred A) with _ | n
    · rw [Option.none_or]
      rcases hfR : R.find? (distPred A) with _ | r
      · exfalso
        have hfire : (⟨true, some .distance, some .longest, some A.distanceMeters,
            none, some A.distanceMeters⟩ :
            RecordDetectionResult) ∈ detectDistanceRecords A R := by
          rw [detectDistanceRecords_def, hfR]
          simp
        exact List.find?_eq_none.mp hfN _ (hmemN (Or.inl hfire)) (created_distPred hfire)
      · dsimp only
        split
        next hgt =>
          exfalso
          have hfire : (⟨true, some .distance, some .longest, some A.distanceMeters,
              some r.value, some (A.distanceMeters - r.value)⟩ :
              RecordDetectionResult) ∈ detectDistanceRecords A R := by
            rw [detectDistanceRecords_def, hfR]
            simp [hgt]
          exact List.find?_eq_none.mp hfN _ (hmemN (Or.inl hfire)) (created_distPred hfire)
        next => rfl
    · simp only [Option.or]
      have hv : n.value = A.distanceMeters :=
        (hval (List.mem_of_find?_eq_some hfN)).1 (List.find?_some hfN)
      rw [hv, if_neg (lt_irrefl _)]
  have hs' : detectSpeedRecords A (N ++ R) = [] := by
    rw [detectSpeedRecords_def]
    have hfast : (match (N ++ R).find? (fastPred A) with
        | none =>
            [({ isRecord := true, recordType := some .speed, category := some .fastest,
                value := some (calculateStatistics A).maxSpeed, previousValue := none,
                improvement := some (calculateStatistics A).maxSpeed } :
                RecordDetectionResult)]
        | some r =>
            if (calculateStatistics A).maxSpeed > r.value then
              [{ isRecord := true, recordType := some .speed, category := some .fastest,
                 value := some (calculateStatistics A).maxSpeed,
                 previousValue := some r.value,
                 improvement := some ((calculateStatistics A).maxSpeed - r.value) }]
            else []) = [] := by
      rw [List.find?_append]
      rcases hfN : N.find? (fastPred A) with _ | n
      · rw [Option.none_or]
        rcases hfR : R.find? (fastPred A) with _ | r
        · exfalso
          have hfire : (⟨true, some .speed, some .fastest,
              some (calculateStatistics A).maxSpeed, none,
              some (calculateStatistics A).maxSpeed⟩ :
              RecordDetectionResult) ∈ detectSpeedRecords A R := by
            rw [detectSpeedRecords_def, hfR]
            simp [List.mem_append]
          exact List.find?_eq_none.mp hfN _ (hmemN (Or.inr (Or.inl hfire)))
            (created_fastPred hfire rfl)
        · dsimp only
          split
          next hgt =>
            exfalso
            have hfire : (⟨true, some .speed, some .fastest,
                some (calculateStatistics A).maxSpeed, some r.value,
                some ((calculateStatistics A).maxSpeed - r.value)⟩ :
                RecordDetectionResult) ∈ detectSpeedRecords A R := by
              rw [detectSpeedRecords_def, hfR]
              simp [hgt, List.mem_append]
            exact List.find?_eq_none.mp hfN _ (hmemN (Or.inr (Or.inl hfire)))
              (created_fastPred hfire rfl)
          next => rfl
      · simp only [Option.or]
        have hv : n.value = (calculateStatistics A).maxSpeed :=
          (hval (List.mem_of_find?_eq_some hfN)).2.1 (List.find?_some hfN)
        rw [hv, if_neg (lt_irrefl _)]
    rw [hfast, List.nil_append]
    by_cases hband : A.distanceMeters ≥ 9500 ∧ A.distanceMeters ≤ 10500
    · rw [if_pos hband, List.find?_append]
      rcases hfN : N.find? (avgPred A) with _ | n
      · rw [Option.none_or]
        rcases hfR : R.find? (avgPred A) with _ | r
        · exfalso
          have hfire : (⟨true, some .speed, some .km10,
              some (calculateStatistics A).averageSpeed, none,
              some (calculateStatistics A).averageSpeed⟩ :
              RecordDetectionResult) ∈ detectSpeedRecords A R := by
            rw [detectSpeedRecords_def]
            rw [List.mem_append]
            right
            rw [if_pos hband, hfR]
            simp
          exact List.find?_eq_none.mp hfN _ (hmemN (Or.inr (Or.inl hfire)))
            (created_avgPred hfire rfl)
        · dsimp only
          split
          next hgt =>
            exfalso
            have hfire : (⟨true, some .speed, some .km10,
                some (calculateStatistics A).averageSpeed, some r.value,
                some ((calculateStatistics A).averageSpeed - r.value)⟩ :
                RecordDetectionResult) ∈ detectSpeedRecords A R := by
              rw [detectSpeedRecords_def]
              rw [List.mem_append]
              right
              rw [if_pos hband, hfR]
              simp [hgt]
            exact List.find?_eq_none.mp hfN _ (hmemN (Or.inr (Or.inl hfire)))
              (created_avgPred hfire rfl)
          next => rfl
      · simp only [Option.or]
        have hv : n.value = (calculateStatistics A).averageSpeed :=
          (hval (List.mem_of_find?_eq_some hfN)).2.2.1 (List.find?_some hfN)
        rw [hv, if_neg (lt_irrefl _)]
    · rw [if_neg hband]
  have ht' : detectTimeRecords A (N ++ R) = [] := by
    rw [show detectTimeRecords A (N ++ R) =
      DISTANCE_CATEGORIES.flatMap (detectTimeStep A (N ++ R)) from rfl]
    refine List.flatMap_eq_nil_iff.mpr ?_
    intro e he
    rw [detectTimeStep_def]
    by_cases hband : A.distanceMeters ≥ e.2.1 ∧ A.distanceMeters ≤ e.2.2
    · rw [if_pos hband, List.find?_append]
      rcases hfN : N.find? (timePred A e.1) with _ | n
      · rw [Option.none_or]
        rcases hfR : R.find? (timePred A e.1) with _ | r
        · exfalso
          have hfire : (⟨true, some .time, some e.1, some A.totalTimeSeconds,
              none, some 0⟩ :
              RecordDetectionResult) ∈ detectTimeStep A R e := by
            rw [detectTimeStep_def, if_pos hband, hfR]
            simp
          have hmemT : (⟨true, some .time, some e.1, some A.totalTimeSeconds,
              none, some 0⟩ :
              RecordDetectionResult) ∈ detectTimeRecords A R := by
            rw [show detectTimeRecords A R =
              DISTANCE_CATEGORIES.flatMap (detectTimeStep A R) from rfl]
            exact List.mem_flatMap.mpr ⟨e, he, hfire⟩
          exact List.find?_eq_none.mp hfN _ (hmemN (Or.inr (Or.inr (Or.inl hmemT))))
            (created_timePred hfire)
        · dsimp only
          split
          next hgt =>
            exfalso
            have hfire : (⟨true, some .time, some e.1, some A.totalTimeSeconds,
                some r.value, some (r.value - A.totalTimeSeconds)⟩ :
                RecordDetectionResult) ∈ detectTimeStep A R e := by
              rw [detectTimeStep_def, if_pos hband, hfR]
              simp [hgt]
            have hmemT : (⟨true, some .time, some e.1, some A.totalTimeSeconds,
                some r.value, some (r.value - A.totalTimeSeconds)⟩ :
                RecordDetectionResult) ∈ detectTimeRecords A R := by
              rw [show detectTimeRecords A R =
                DISTANCE_CATEGORIES.flatMap (detectTimeStep A R) from rfl]
              exact List.mem_flatMap.mpr ⟨e, he, hfire⟩
            exact List.find?_eq_none.mp hfN _ (hmemN (Or.inr (Or.inr (Or.inl hmemT))))
              (created_timePred hfire)
          next => rfl
      · simp only [Option.or]
        have hv : n.value = A.totalTimeSeconds :=
          (hval (List.mem_of_find?_eq_some hfN)).2.2.2.1 e.1 (List.find?_some hfN)
        rw [hv, if_neg (lt_irrefl _)]
    · rw [if_neg hband]
  have he' : detectElevationRecords A (N ++ R) = [] := by
    rw [detectElevationRecords_def]
    by_cases htr : truthy (calculateStatistics A).elevationGain = false
    · rw [if_pos htr]
    · rw [if_neg htr, List.find?_append]
      rcases hfN : N.find? (elevPred A) with _ | n
      · rw [Option.none_or]
        rcases hfR : R.find? (elevPred A) with _ | r
        · exfalso
          have hfire : (⟨true, some .elevation, some .highest,
              some ((calculateStatistics A).elevationGain.getD 0), none,
              some ((calculateStatistics A).elevationGain.getD 0)⟩ :
              RecordDetectionResult) ∈ detectElevationRecords A R := by
            rw [detectElevationRecords_def, if_neg htr, hfR]
            simp
          exact List.find?_eq_none.mp hfN _ (hmemN (Or.inr (Or.inr (Or.inr (Or.inl hfire)))))
            (created_elevPred hfire)
        · dsimp only
          split
          next hgt =>
            exfalso
            have hfire : (⟨true, some .elevation, some .highest,
                some ((calculateStatistics A).elevationGain.getD 0), some r.value,
                some ((calculateStatistics A).elevationGain.getD 0 - r.value)⟩ :
                RecordDetectionResult) ∈ detectElevationRecords A R := by
              rw [detectElevationRecords_def, if_neg htr, hfR]
              simp [hgt]
            exact List.find?_eq_none.mp hfN _
              (hmemN (Or.inr (Or.inr (Or.inr (Or.inl hfire))))) (created_elevPred hfire)
          next => rfl
      · simp only [Option.or]
        have hv : n.value = (calculateStatistics A).elevationGain.getD 0 :=
          (hval (List.mem_of_find?_eq_some hfN)).2.2.2.2.1 (List.find?_some hfN)
        rw [hv, if_neg (lt_irrefl _)]
  have hc' : detectCalorieRecords A (N ++ R) = [] := by
    rw [detectCalorieRecords_def]
    by_cases htr : truthy A.calories = false
    · rw [if_pos htr]
    · rw [if_neg htr, List.find?_append]
      rcases hfN : N.find? (calPred A) with _ | n
      · rw [Option.none_or]
        rcases hfR : R.find? (calPred A) with _ | r
        · exfalso
          have hfire : (⟨true, some .calories, some .longest, some (A.calories.getD 0),
              none, some (A.calories.getD 0)⟩ :
              RecordDetectionResult) ∈ detectCalorieRecords A R := by
            rw [detectCalorieRecords_def, if_neg htr, hfR]
            simp
          exact List.find?_eq_none.mp hfN _
            (hmemN (Or.inr (Or.inr (Or.inr (Or.inr hfire))))) (created_calPred hfire)
        · dsimp only
          split
          next hgt =>
            exfalso
            have hfire : (⟨true, some .calories, some .longest, some (A.calories.getD 0),
                some r.value, some (A.calories.getD 0 - r.value)⟩ :
                RecordDetectionResult) ∈ detectCalorieRecords A R := by
              rw [detectCalorieRecords_def, if_neg htr, hfR]
              simp [hgt]
            exact List.find?_eq_none.mp hfN _
              (hmemN (Or.inr (Or.inr (Or.inr (Or.inr hfire))))) (created_calPred hfire)
          next => rfl
      · simp only [Option.or]
        have hv : n.value = A.calories.getD 0 :=
          (hval (List.mem_of_find?_eq_some hfN)).2.2.2.2.2 (List.find?_some hfN)
        rw [hv, if_neg (lt_irrefl _)]
  rw [detectRecords, hd', hs', ht', he', hc']
  rfl

/-- C3 counterexample: with the freshly created records *appended after*
the existing ones (`R ++ new`), the second run's `find` still returns the
stale distance record (5000 m) first, so the same distance detection fires
again: its (type, category) pair was already produced by the first run. -/
theorem detectRecords_append_counterexample :
    ∃ res ∈ detectRecords ⟨"b1", "Running", 0, 3000, 8000, none, []⟩
        ([⟨"r0", .distance, .longest, 5000, "m", "x", 0, "Running", none, none, false⟩] ++
          (detectRecords ⟨"b1", "Running", 0, 3000, 8000, none, []⟩
            [⟨"r0", .distance, .longest, 5000, "m", "x", 0, "Running", none, none,
              false⟩]).map
            (fun dd => createRecordFromDetection dd
              ⟨"b1", "Running", 0, 3000, 8000, none, []⟩)),
      ∃ res1 ∈ detectRecords ⟨"b1", "Running", 0, 3000, 8000, none, []⟩
          [⟨"r0", .distance, .longest, 5000, "m", "x", 0, "Running", none, none, false⟩],
        res.recordType = res1.recordType ∧ res.category = res1.category ∧
          res.recordType = some RecordType.distance := by
  have h1 : detectRecords ⟨"b1", "Running", 0, 3000, 8000, none, []⟩
      [⟨"r0", .distance, .longest, 5000, "m", "x", 0, "Running", none, none, false⟩] =
      [⟨true, some .distance, some .longest, some 8000, some 5000, some 3000⟩,
       ⟨true, some .speed, some .fastest, some 0, none, some 0⟩] := by
    norm_num [detectRecords, detectDistanceRecords, detectSpeedRecords, detectTimeRecords,
      detectTimeStep, detectElevationRecords, detectCalorieRecords, DISTANCE_CATEGORIES,
      calculateStatistics, allTrackpoints, truthy, List.find?, List.filter, List.flatMap]
  have h2 : detectRecords ⟨"b1", "Running", 0, 3000, 8000, none, []⟩
      ([⟨"r0", .distance, .longest, 5000, "m", "x", 0, "Running", none, none, false⟩] ++
        (detectRecords ⟨"b1", "Running", 0, 3000, 8000, none, []⟩
          [⟨"r0", .distance, .longest, 5000, "m", "x", 0, "Running", none, none,
            false⟩]).map
          (fun dd => createRecordFromDetection dd
            ⟨"b1", "Running", 0, 3000, 8000, none, []⟩)) =
      [⟨true, some .distance, some .longest, some 8000, some 5000, some 3000⟩] := by
    rw [h1]
    norm_num [detectRecords, detectDistanceRecords, detectSpeedRecords, detectTimeRecords,
      detectTimeStep, detectElevationRecords, detectCalorieRecords, DISTANCE_CATEGORIES,
      calculateStatistics, allTrackpoints, truthy, createRecordFromDetection,
      getUnitForRecordType, RecordType.key, RecordCategory.key, Option.get!_some,
      List.find?, List.filter, List.flatMap]
  refine ⟨⟨true, some .distance, some .longest, some 8000, some 5000, some 3000⟩,
    by rw [h2]; exact List.mem_singleton.mpr rfl,
    ⟨true, some .distance, some .longest, some 8000, some 5000, some 3000⟩,
    by rw [h1]; exact List.mem_cons_self _ _, rfl, rfl, rfl⟩

end BobSport
